import Mathlib

/-!
# Verification of the wildlife-grad classification & model-lifecycle core

Shallow embedding, in Lean 4, of the classification pipeline of the
`wildlife-grad-dashboard` repository:

* `src/wildlife_grad/analysis/enhanced_analysis.py`
  (`GraduatePositionDetector`, `DisciplineClassifier` and its refinement
  tiers), and
* `scripts/retrain_discipline_model.py`
  (gold/pseudo training-data assembly, the promotion decision, the
  training gate of `main`, and the confidence-queue builder).

Python floats are embedded as rationals (`ℚ`), Python strings as Lean
`String`/`List Char`, Python dict rows as structures whose fields default
to the falsy value the code substitutes (`""`/`0.0`).  The scikit-learn
model internals (TF-IDF vectors, centroids, logistic regression) are not
re-implemented; every function of the repository that consumes a model
prediction is embedded with the prediction step as an explicit function
parameter, so the acceptance-gate and control-flow logic — which is what
the specification speaks about — is carried over verbatim.
-/

set_option maxRecDepth 4000

namespace WildlifeGrad

/-! ## Basic text primitives

Python `str.strip()` and `str.lower()` are embedded character-wise over
the string's character list (`pyStrip`, `pyLower`), matching Python's
ASCII behaviour on the texts this program handles. -/

/-- Python regex/str whitespace (ASCII part: space, tab, newline,
carriage return, vertical tab, form feed). -/
def isPyWhitespace (c : Char) : Bool :=
  c == ' ' || c == '\t' || c == '\n' || c == '\r'
    || c == Char.ofNat 11 || c == Char.ofNat 12

/-- Python `str.strip()`: drop whitespace from both ends. -/
def pyStrip (s : String) : String :=
  ⟨(((s.toList.dropWhile isPyWhitespace).reverse).dropWhile isPyWhitespace).reverse⟩

/-- Python `str.lower()`, as a character map over the ASCII texts
considered here. -/
def pyLower (s : String) : String :=
  ⟨s.toList.map Char.toLower⟩

/-- Embedding of `str(label or "").strip() or "Other"` applied to a label
string (`refine_other_labels_with_secondary_ml` /
`refine_other_labels_with_promoted_model`, enhanced_analysis.py). -/
def normalizeLabel (s : String) : String :=
  if pyStrip s = "" then "Other" else pyStrip s

/-- Embedding of `str(label or "").strip()` applied to a secondary label. -/
def normalizeSecondaryLabel (s : String) : String :=
  pyStrip s

/-! ## Promotion decision (`scripts/retrain_discipline_model.py`)

`promotion_decision(new_metrics, old_metrics, min_macro_f1_improvement,
min_accuracy_improvement, force_promote)`.  The metrics dictionaries carry
`macro_f1` and `accuracy`; `float(d.get(k) or 0.0)` is total on our
structure embedding, an absent previous-model metrics dict is `none`. -/

structure Metrics where
  macro_f1 : ℚ
  accuracy : ℚ
  deriving Repr, DecidableEq

/-- Embedding of `promotion_decision` (retrain_discipline_model.py,
lines 645–669).  Returns `(promote, reason)`. -/
def promotionDecision (newMetrics : Metrics) (oldMetrics : Option Metrics)
    (minMacroF1Improvement minAccuracyImprovement : ℚ)
    (forcePromote : Bool) : Bool × String :=
  if forcePromote then (true, "force_promote")
  else
    match oldMetrics with
    | none => (true, "first_promoted_model")
    | some old =>
        if newMetrics.macro_f1 > old.macro_f1 + minMacroF1Improvement then
          (true, "macro_f1_improved")
        else if |newMetrics.macro_f1 - old.macro_f1| ≤ minMacroF1Improvement
            ∧ newMetrics.accuracy > old.accuracy + minAccuracyImprovement then
          (true, "accuracy_improved_with_stable_macro_f1")
        else
          (false, "validation_not_improved")

/-! ## Stable descending sort

Python's `sorted(..., key=k, reverse=True)` / `list.sort(key=k,
reverse=True)` orders by descending key and keeps the original relative
order of elements with equal keys.  `lt` is the strict `<` of the key. -/

/-- Insert an element into a descending-sorted list, after every element
whose key is not smaller (so that a later element never jumps ahead of an
equal-keyed earlier one). -/
def insertDescBy {α : Type} (lt : α → α → Bool) (a : α) : List α → List α
  | [] => [a]
  | b :: bs => if lt b a then a :: b :: bs else b :: insertDescBy lt a bs

/-- Stable sort by descending key. -/
def sortDescBy {α : Type} (lt : α → α → Bool) (l : List α) : List α :=
  l.foldl (fun acc x => insertDescBy lt x acc) []

/-! ## Discipline rule classifier: ranking, primary/secondary selection,
ambiguity gate and the similarity refiner
(`DisciplineClassifier`, enhanced_analysis.py)

Rule-based scores are embedded as an association list `List (String × ℤ)`
in Python dict insertion order (the source builds `scores` with distinct
keys).  The TF-IDF similarity computation of
`_ml_classify_with_confidence` is scikit-learn code and enters
`_maybe_refine_with_ml` only through its `(primary, secondary,
confidence)` result, so it is a function parameter below. -/

/-- Constant `self.discipline_priority` (DisciplineClassifier.__init__). -/
def disciplinePriority : List String :=
  ["Human Dimensions", "Entomology", "Fisheries and Aquatic", "Wildlife",
   "Forestry and Habitat", "Agriculture", "Environmental Sciences"]

/-- Embedding of the `priority_rank` dict comprehension of
`_rank_disciplines`: ranks 1..7 over the reversed priority list via
`enumerate(self.discipline_priority[::-1], start=1)`, with
`priority_rank.get(x[0], 0)` as the lookup. -/
def priorityRank (name : String) : ℕ :=
  match disciplinePriority.reverse.indexOf? name with
  | some i => i + 1
  | none => 0

/-- Python tuple `<` on the `_rank_disciplines` sort key
`(score, priority_rank)`. -/
def scoreKeyLt (a b : String × ℤ) : Bool :=
  decide (a.2 < b.2 ∨ (a.2 = b.2 ∧ priorityRank a.1 < priorityRank b.1))

/-- Embedding of `_rank_disciplines` (enhanced_analysis.py, lines
819–826): sort `scores.items()` by `(score, priority_rank)` descending. -/
def rankDisciplines (scores : List (String × ℤ)) : List (String × ℤ) :=
  sortDescBy scoreKeyLt scores

/-- Embedding of `_classify_from_scores` (enhanced_analysis.py, lines
828–839): primary is the top-ranked discipline, secondary the runner-up
only when its score is positive. -/
def classifyFromScores (scores : List (String × ℤ)) : String × String :=
  match rankDisciplines scores with
  | [] => ("Other", "")
  | top :: rest =>
      (top.1,
       match rest with
       | [] => ""
       | second :: _ => if 0 < second.2 then second.1 else "")

/-- Embedding of `_is_ambiguous_scores` (enhanced_analysis.py, lines
841–848): no scores at all, weak top score, or a thin top-to-second
margin. -/
def isAmbiguousScores (scores : List (String × ℤ)) : Bool :=
  match rankDisciplines scores with
  | [] => true
  | top :: rest =>
      let second : ℤ := match rest with | [] => 0 | s :: _ => s.2
      decide (top.2 ≤ 2 ∨ top.2 - second ≤ 1)

/-- Constant `self.ml_min_similarity = 0.12` (DisciplineClassifier.__init__). -/
def mlMinSimilarity : ℚ := mkRat 12 100

/-- Constant `self.ml_override_similarity = 0.2` (DisciplineClassifier.__init__). -/
def mlOverrideSimilarity : ℚ := mkRat 2 10

/-- Flag `self.ml_refine_enabled = HAS_SKLEARN`: scikit-learn is available in
the deployed configuration this development models. -/
def mlRefineEnabled : Bool := true

/-- Embedding of `_maybe_refine_with_ml` (enhanced_analysis.py, lines
850–868).  `mlClassify` stands for `_ml_classify_with_confidence` and
returns `(ml_primary, ml_secondary, ml_confidence)`. -/
def maybeRefineWithML (mlClassify : String → String × String × ℚ)
    (primary secondary : String) (scores : List (String × ℤ)) (text : String) :
    String × String :=
  if ¬ mlRefineEnabled ∨ ¬ isAmbiguousScores scores then (primary, secondary)
  else
    let r := mlClassify text
    let mlPrimary := r.1
    let mlSecondary := r.2.1
    let mlConfidence := r.2.2
    if mlConfidence < mlMinSimilarity ∨ mlPrimary = "Other" then (primary, secondary)
    else if primary = "Other" then (mlPrimary, mlSecondary)
    else if mlPrimary ≠ primary ∧ mlConfidence < mlOverrideSimilarity then
      (primary, secondary)
    else (mlPrimary, mlSecondary)

/-! ## Job positions and the refinement tiers
(`src/wildlife_grad/analysis/enhanced_analysis.py`)

`JobPosition` keeps the text fields the classification code reads; the
derived label fields are passed to the tier functions as explicit lists,
exactly as the Python methods receive them. -/

structure JobPosition where
  title : String := ""
  organization : String := ""
  location : String := ""
  salary : String := ""
  tags : String := ""
  description : String := ""
  deriving Repr, DecidableEq, Inhabited

/-- Result of `_secondary_ml_predict`: `(top_label, secondary_label,
top_similarity, margin)`.  The TF-IDF/centroid computation itself is
scikit-learn code; the tier logic below takes the predictor as a
parameter. -/
structure SecondaryPrediction where
  primary : String
  secondary : String
  similarity : ℚ
  margin : ℚ
  deriving Repr, DecidableEq

/-- Embedding of `base_primary = [str(label or "").strip() or "Other" for label in
primary_labels]` (both refinement tiers). -/
def basePrimaryLabels (primaryLabels : List String) : List String :=
  primaryLabels.map normalizeLabel

/-- Embedding of `base_secondary`: all-empty when no secondary list is given, otherwise
the stripped secondary labels (both refinement tiers). -/
def baseSecondaryLabels (basePrimary : List String) :
    Option (List String) → List String
  | none => basePrimary.map (fun _ => "")
  | some ls => ls.map normalizeSecondaryLabel

/-- Constant `self.secondary_ml_min_similarity = 0.3` (DisciplineClassifier.__init__). -/
def secondaryMlMinSimilarity : ℚ := mkRat 3 10

/-- Constant `self.secondary_ml_min_margin = 0.1` (DisciplineClassifier.__init__). -/
def secondaryMlMinMargin : ℚ := mkRat 1 10

/-- Per-row relabel step of the loop inside
`refine_other_labels_with_secondary_ml`: rows whose first-pass primary is
not `"Other"` are kept; otherwise the second-pass prediction is accepted
only past the similarity, margin and non-Other gates. -/
def secondaryRefineRow {A : Type} (predict : A → JobPosition → SecondaryPrediction)
    (artifacts : A) (row : JobPosition × String × String) : String × String :=
  let position := row.1
  let primary := row.2.1
  let secondary := row.2.2
  if primary ≠ "Other" then (primary, secondary)
  else
    let pred := predict artifacts position
    if pred.similarity < secondaryMlMinSimilarity
        ∨ pred.margin < secondaryMlMinMargin
        ∨ pred.primary = "Other" then
      (primary, secondary)
    else
      (pred.primary,
       if pred.secondary ≠ "" ∧ pred.secondary ≠ pred.primary
       then pred.secondary else "")

/-- Embedding of `refine_other_labels_with_secondary_ml`
(enhanced_analysis.py, lines 1004–1054).  `buildArtifacts` stands for
`_build_secondary_ml_artifacts` (returns `None` when the within-batch
training set is too small), `predict` for `_secondary_ml_predict`;
`secondaryMlEnabled` is `self.secondary_ml_enabled and HAS_SKLEARN`.
The Python `raise ValueError` is an `Except.error`. -/
def refineOtherLabelsWithSecondaryML {A : Type}
    (buildArtifacts : List JobPosition → List String → Option A)
    (predict : A → JobPosition → SecondaryPrediction)
    (secondaryMlEnabled : Bool)
    (positions : List JobPosition)
    (primaryLabels : List String)
    (secondaryLabels : Option (List String)) :
    Except String (List String × List String) :=
  let basePrimary := basePrimaryLabels primaryLabels
  let baseSecondary := baseSecondaryLabels basePrimary secondaryLabels
  if positions.length ≠ basePrimary.length ∨ baseSecondary.length ≠ basePrimary.length then
    .error "Positions and label lists must be the same length"
  else if ¬ secondaryMlEnabled then
    .ok (basePrimary, baseSecondary)
  else
    match buildArtifacts positions basePrimary with
    | none => .ok (basePrimary, baseSecondary)
    | some artifacts =>
        let refined := (positions.zip (basePrimary.zip baseSecondary)).map
          (secondaryRefineRow predict artifacts)
        .ok (refined.map Prod.fst, refined.map Prod.snd)

/-- Result of `predict_with_promoted_model`: availability flag, labels,
probability of the top class and top-minus-second margin. -/
structure PromotedPrediction where
  available : Bool
  primary : String
  secondary : String
  confidence : ℚ
  margin : ℚ
  deriving Repr, DecidableEq

/-- Constant `self.promoted_model_min_confidence = 0.62` (DisciplineClassifier.__init__). -/
def promotedModelMinConfidence : ℚ := mkRat 62 100

/-- Constant `self.promoted_model_min_margin = 0.08` (DisciplineClassifier.__init__). -/
def promotedModelMinMargin : ℚ := mkRat 8 100

/-- Per-row relabel step of the loop inside
`refine_other_labels_with_promoted_model` (the `continue` gates written
as kept rows). -/
def promotedRefineRow (predictWithPromotedModel : JobPosition → PromotedPrediction)
    (row : JobPosition × String × String) : String × String :=
  let position := row.1
  let primary := row.2.1
  let secondary := row.2.2
  if primary ≠ "Other" then (primary, secondary)
  else
    let pred := predictWithPromotedModel position
    if ¬ pred.available then (primary, secondary)
    else if pred.primary = "" ∨ pred.primary = "Other" then (primary, secondary)
    else if pred.confidence < promotedModelMinConfidence then (primary, secondary)
    else if pred.margin < promotedModelMinMargin then (primary, secondary)
    else
      (pred.primary,
       if pred.secondary ≠ "" ∧ pred.secondary ≠ pred.primary
       then pred.secondary else "")

/-- Embedding of `refine_other_labels_with_promoted_model`
(enhanced_analysis.py, lines 1206–1254).  `predictWithPromotedModel`
stands for `predict_with_promoted_model` (a lazily-loaded, cached,
read-only artifact in the source, hence a fixed function here);
`promotedModelEnabled` is `self.promoted_model_enabled`. -/
def refineOtherLabelsWithPromotedModel
    (predictWithPromotedModel : JobPosition → PromotedPrediction)
    (promotedModelEnabled : Bool)
    (positions : List JobPosition)
    (primaryLabels : List String)
    (secondaryLabels : Option (List String)) :
    Except String (List String × List String) :=
  let basePrimary := basePrimaryLabels primaryLabels
  let baseSecondary := baseSecondaryLabels basePrimary secondaryLabels
  if positions.length ≠ basePrimary.length ∨ baseSecondary.length ≠ basePrimary.length then
    .error "Positions and label lists must be the same length"
  else if ¬ promotedModelEnabled then
    .ok (basePrimary, baseSecondary)
  else
    let refined := (positions.zip (basePrimary.zip baseSecondary)).map
      (promotedRefineRow predictWithPromotedModel)
    .ok (refined.map Prod.fst, refined.map Prod.snd)

/-! ## Retraining script data model (`scripts/retrain_discipline_model.py`)

Rows are the JSON dictionaries the script reads; each structure field is
a key the code accesses via `row.get(...)`, with Python's falsy default
(`""` for strings, `0.0` for the confidence). -/

structure Row where
  url : String := ""
  title : String := ""
  organization : String := ""
  location : String := ""
  published_date : String := ""
  tags : String := ""
  description : String := ""
  discipline_primary : String := ""
  discipline : String := ""
  grad_confidence : ℚ := 0
  discipline_refinement_source : String := ""
  /-- The stored `position_key` of a gold-label row. -/
  position_key_field : String := ""
  deriving Repr, DecidableEq, Inhabited

/-- Python `a or b` for strings: `b` when `a` is falsy (empty). -/
def orElseStr (a b : String) : String := if a = "" then b else a

/-- Table `DISCIPLINE_MAPPING` (retrain_discipline_model.py, lines 36–63). -/
def disciplineMapping : List (String × String) :=
  [("Environmental Science", "Environmental Sciences"),
   ("Environmental Sciences", "Environmental Sciences"),
   ("Ecology", "Environmental Sciences"),
   ("Fisheries", "Fisheries and Aquatic"),
   ("Fisheries and Aquatic", "Fisheries and Aquatic"),
   ("Fisheries & Aquatic Science", "Fisheries and Aquatic"),
   ("Fisheries Management and Conservation", "Fisheries and Aquatic"),
   ("Marine Science", "Fisheries and Aquatic"),
   ("Wildlife", "Wildlife"),
   ("Wildlife Management and Conservation", "Wildlife"),
   ("Wildlife Management", "Wildlife"),
   ("Wildlife & Natural Resources", "Wildlife"),
   ("Conservation", "Wildlife"),
   ("Entomology", "Entomology"),
   ("Forestry", "Forestry and Habitat"),
   ("Forestry and Habitat", "Forestry and Habitat"),
   ("Natural Resource Management", "Forestry and Habitat"),
   ("Agriculture", "Agriculture"),
   ("Agricultural Science", "Agriculture"),
   ("Animal Science", "Agriculture"),
   ("Agronomy", "Agriculture"),
   ("Range Management", "Agriculture"),
   ("Human Dimensions", "Human Dimensions"),
   ("Other", "Other"),
   ("Unknown", "Other"),
   ("Non-Graduate", "Other")]

/-- List `CANONICAL_DISCIPLINES` (retrain_discipline_model.py, lines 65–74). -/
def canonicalDisciplines : List String :=
  ["Environmental Sciences", "Fisheries and Aquatic", "Wildlife", "Entomology",
   "Forestry and Habitat", "Agriculture", "Human Dimensions", "Other"]

/-- Embedding of `normalize_discipline` (retrain_discipline_model.py, lines 141–145). -/
def normalizeDiscipline (value : String) : String :=
  let text := pyStrip value
  if text = "" then "Other"
  else (disciplineMapping.lookup text).getD "Other"

/-- Embedding of `position_key` (retrain_discipline_model.py, lines 148–159). -/
def positionKey (row : Row) : String :=
  let url := pyLower (pyStrip row.url)
  if url ≠ "" then "url::" ++ url
  else
    let title := pyLower (pyStrip row.title)
    let org := pyLower (pyStrip row.organization)
    let loc := pyLower (pyStrip row.location)
    let pub := pyLower (pyStrip row.published_date)
    if title ≠ "" ∧ org ≠ "" then
      "title_org::" ++ title ++ "::" ++ org ++ "::" ++ loc ++ "::" ++ pub
    else if title ≠ "" then
      "title::" ++ title ++ "::" ++ pub
    else ""

/-- Embedding of `combined_text` (retrain_discipline_model.py, lines 162–169). -/
def combinedText (row : Row) : String :=
  pyLower (pyStrip (row.title ++ " " ++ row.tags ++ " " ++ row.organization
    ++ " " ++ row.description))

/-- Embedding of `build_gold_examples` (retrain_discipline_model.py, lines 316–332),
as the list of `(text, label, key)` triples of the gold-store rows whose
combined text and position key are non-empty. -/
def goldExampleRows (labels : List Row) : List (String × String × String) :=
  labels.filterMap (fun item =>
    let discipline := normalizeDiscipline item.discipline
    let text := combinedText item
    let key := pyStrip item.position_key_field
    if text = "" ∨ key = "" then none
    else some (text, discipline, key))

/-- Embedding of the `build_gold_examples` return shape `(texts, labels, keys)`. -/
def buildGoldExamples (labels : List Row) :
    List String × List String × List String :=
  ((goldExampleRows labels).map (fun t => t.1),
   (goldExampleRows labels).map (fun t => t.2.1),
   (goldExampleRows labels).map (fun t => t.2.2))

/-- Number of distinct values, i.e. Python `len(Counter(labels))` keeping
first-occurrence order. -/
def distinctCount (labels : List String) : ℕ :=
  labels.eraseDups.length

/-- Embedding of `filter_rare_gold_classes` (retrain_discipline_model.py, lines
427–449): drop every class with fewer than `minCount` examples; returns
`(texts, labels, keys, dropped class counts)`. -/
def filterRareGoldClasses (texts labels keys : List String) (minCount : ℕ) :
    List String × List String × List String × List (String × ℕ) :=
  let dropped := labels.eraseDups.filterMap (fun l =>
    if labels.count l < minCount then some (l, labels.count l) else none)
  if labels.all (fun l => labels.count l < minCount) then
    ([], [], [], dropped)
  else
    let kept := (texts.zip (labels.zip keys)).filter
      (fun t => minCount ≤ labels.count t.2.1)
    (kept.map (fun t => t.1), kept.map (fun t => t.2.1),
     kept.map (fun t => t.2.2), dropped)

/-! ## Pseudo-labeled training examples (`build_pseudo_examples`) -/

/-- The normalized discipline of a stored posting:
`normalize_discipline(row.get("discipline_primary") or row.get("discipline") or "Other")`
(`build_pseudo_examples`, lines 483–485). -/
def pseudoRowDiscipline (row : Row) : String :=
  normalizeDiscipline
    (orElseStr row.discipline_primary (orElseStr row.discipline "Other"))

/-- Appending one `(text, discipline)` pair to its class bucket
(`per_class[discipline].append(...)` over the functional bucket state). -/
def bucketAppend (perClass : String → List (String × String))
    (disc text : String) : String → List (String × String) :=
  fun d => if d = disc then perClass disc ++ [(text, disc)] else perClass d

/-- One step of the bucket-filling loop of `build_pseudo_examples`
(retrain_discipline_model.py, lines 476–500), over the per-class
`defaultdict(list)` state: rows without a usable key, rows whose key is
excluded, Other/low-confidence/empty-text rows and rows of a full bucket
are skipped. -/
def pseudoBucketsStep (excluded : List String) (maxPerClass : ℕ)
    (perClass : String → List (String × String)) (row : Row) :
    String → List (String × String) :=
  if positionKey row = "" ∨ positionKey row ∈ excluded then perClass
  else if pseudoRowDiscipline row = "Other" then perClass
  else if row.grad_confidence < mkRat 3 4 then perClass
  else if combinedText row = "" then perClass
  else if maxPerClass ≤ (perClass (pseudoRowDiscipline row)).length then perClass
  else bucketAppend perClass (pseudoRowDiscipline row) (combinedText row)

/-- The filled per-class buckets of `build_pseudo_examples`. -/
def pseudoBuckets (positions : List Row) (excluded : List String)
    (maxPerClass : ℕ) : String → List (String × String) :=
  positions.foldl (pseudoBucketsStep excluded maxPerClass) (fun _ => [])

/-- Embedding of `build_pseudo_examples` (retrain_discipline_model.py, lines 467–510):
the buckets flattened in `CANONICAL_DISCIPLINES` order, returned as
`(texts, labels)`. -/
def buildPseudoExamples (positions : List Row) (excluded : List String)
    (maxPerClass : ℕ) : List String × List String :=
  let pairs := canonicalDisciplines.flatMap
    (fun d => pseudoBuckets positions excluded maxPerClass d)
  (pairs.map (fun t => t.1), pairs.map (fun t => t.2))

/-- The pseudo-example call of `main` (retrain_discipline_model.py, lines
927–945): gold examples are built from the store, rare classes are
dropped with `min_count=2`, and `build_pseudo_examples` receives the
*filtered* gold keys as its exclusion list. -/
def mainPseudoExamples (goldStoreLabels : List Row) (positions : List Row)
    (maxPseudoPerClass : ℕ) : List String × List String :=
  let g := buildGoldExamples goldStoreLabels
  let f := filterRareGoldClasses g.1 g.2.1 g.2.2 2
  buildPseudoExamples positions f.2.2.1 maxPseudoPerClass

/-! ## Manifest and the training gate of `main` -/

structure HistoryEvent where
  status : String
  reason : String
  model_id : String
  deriving Repr, DecidableEq

structure PromotedInfo where
  model_id : String
  metrics : Metrics
  deriving Repr, DecidableEq

structure Manifest where
  promoted : Option PromotedInfo := none
  history : List HistoryEvent := []
  deriving Repr, DecidableEq

/-- Embedding of `update_manifest` (retrain_discipline_model.py, lines 711–747), with
timestamps and artifact file paths elided from the pure-data embedding:
append a history event (capped to the last 100), and move the `promoted`
pointer only when `promote` holds. -/
def updateManifest (manifest : Manifest) (metadataModelId : String)
    (metadataMetrics : Metrics) (promote : Bool) (reason : String) : Manifest :=
  let event : HistoryEvent :=
    { status := if promote then "promoted" else "candidate_rejected",
      reason := reason, model_id := metadataModelId }
  let history := manifest.history ++ [event]
  let history := history.drop (history.length - 100)
  { promoted := if promote then
      some { model_id := metadataModelId, metrics := metadataMetrics }
    else manifest.promoted,
    history := history }

structure TrainingOutcome where
  trained : Bool
  promote : Bool
  reason : String
  candidateModelId : Option String
  manifest : Manifest
  deriving Repr, DecidableEq

/-- Embedding of the training/promotion slice of `main`
(retrain_discipline_model.py, lines 953–1017): the trainability gate
`len(gold_labels) >= 8 and len(gold_counter) >= 2` over the
rare-class-filtered gold labels, candidate training (the scikit-learn
evaluation and fit abstracted as `evalMetrics`, the artifact write as the
fresh `candidateModelId`), the promotion decision, and the manifest
update.  When the gate fails, `reason` keeps its initial value
`"insufficient_gold_labels"`, nothing is trained or persisted
(`candidate_metadata` stays `None`) and the manifest is not written. -/
def mainTrainingOutcome (goldLabels : List String) (manifest : Manifest)
    (evalMetrics : Metrics) (candidateModelId : String)
    (minMacroF1Improvement minAccuracyImprovement : ℚ)
    (forcePromote : Bool) : TrainingOutcome :=
  let oldMetrics := manifest.promoted.map (fun p => p.metrics)
  let trainable := 8 ≤ goldLabels.length ∧ 2 ≤ distinctCount goldLabels
  if trainable then
    let pr := promotionDecision evalMetrics oldMetrics
      minMacroF1Improvement minAccuracyImprovement forcePromote
    { trained := true, promote := pr.1, reason := pr.2,
      candidateModelId := some candidateModelId,
      manifest := updateManifest manifest candidateModelId evalMetrics pr.1 pr.2 }
  else
    { trained := false, promote := false, reason := "insufficient_gold_labels",
      candidateModelId := none, manifest := manifest }

/-! ## Confidence queue (`build_confidence_queue`) -/

/-- Result of `predict_from_artifact`. -/
structure Prediction where
  primary : String
  secondary : String
  confidence : ℚ
  margin : ℚ
  deriving Repr, DecidableEq

/-- Python `round(x, 4)` on rationals: round `x * 10000` to the nearest
integer (the half-even tie rule of floats never fires on the inputs
considered here), over the common denominator, so that concrete inputs
reduce in the kernel: `round(y) = ⌊y + 1/2⌋` for
`y = (x.num * 10000) / x.den`. -/
def round4 (x : ℚ) : ℚ :=
  Rat.divInt (Int.fdiv (x.num * 20000 + x.den) (2 * (x.den : ℤ))) 10000

structure QueueItem where
  severity : ℕ
  reasons : List String
  position_key : String
  discipline_final : String
  discipline_model_suggested : String
  discipline_model_secondary : String
  model_confidence : ℚ
  model_margin : ℚ
  title : String
  organization : String
  location : String
  published_date : String
  url : String
  review_status : String := ""
  reviewed_discipline : String := ""
  review_notes : String := ""
  reviewer : String := ""
  deriving Repr, DecidableEq

/-- The final discipline of a queue row:
`normalize_discipline(row.get("discipline_primary") or row.get("discipline") or "Other")`. -/
def queueFinalDisc (row : Row) : String :=
  normalizeDiscipline
    (orElseStr row.discipline_primary (orElseStr row.discipline "Other"))

/-- The model prediction consulted for a queue row: the promoted model's
output when one is loaded, else the Other/zero placeholder dict. -/
def queuePrediction (modelAvailable : Bool) (predictText : String → Prediction)
    (row : Row) : Prediction :=
  if modelAvailable then predictText (combinedText row)
  else { primary := "Other", secondary := "", confidence := 0, margin := 0 }

/-- The reason codes collected for a queue row (`build_confidence_queue`,
retrain_discipline_model.py, lines 804–825), in append order. -/
def queueReasons (modelAvailable : Bool) (pred : Prediction)
    (finalDisc : String) : List String :=
  (if finalDisc = "Other" then ["final_other"] else []) ++
  (if modelAvailable then
    (if finalDisc = "Other" then
      (if pred.primary ≠ "Other" ∧ mkRat 6 10 ≤ pred.confidence
          ∧ mkRat 8 100 ≤ pred.margin
       then ["suggested_relabel"] else ["still_other_low_signal"])
     else if pred.primary ≠ "Other" ∧ pred.primary ≠ finalDisc
         ∧ mkRat 7 10 ≤ pred.confidence ∧ mkRat 1 10 ≤ pred.margin
       then ["model_rule_disagreement"] else [])
   else if finalDisc = "Other" then ["no_promoted_model"] else [])

/-- Per-row queue entry of `build_confidence_queue`
(retrain_discipline_model.py, lines 795–851); `none` when no reason code
applies (the row is skipped).  `predictText` stands for
`predict_from_artifact(artifact, ·)` and `modelAvailable` for
`artifact is not None`. -/
def queueItemForRow (modelAvailable : Bool) (predictText : String → Prediction)
    (row : Row) : Option QueueItem :=
  if queueReasons modelAvailable (queuePrediction modelAvailable predictText row)
      (queueFinalDisc row) = [] then none
  else some
    { severity := (queueReasons modelAvailable
          (queuePrediction modelAvailable predictText row)
          (queueFinalDisc row)).length
        + (if "final_other" ∈ queueReasons modelAvailable
              (queuePrediction modelAvailable predictText row)
              (queueFinalDisc row) then 1 else 0),
      reasons := queueReasons modelAvailable
        (queuePrediction modelAvailable predictText row) (queueFinalDisc row),
      position_key := positionKey row,
      discipline_final := queueFinalDisc row,
      discipline_model_suggested :=
        (queuePrediction modelAvailable predictText row).primary,
      discipline_model_secondary :=
        (queuePrediction modelAvailable predictText row).secondary,
      model_confidence :=
        round4 (queuePrediction modelAvailable predictText row).confidence,
      model_margin :=
        round4 (queuePrediction modelAvailable predictText row).margin,
      title := row.title,
      organization := row.organization,
      location := row.location,
      published_date := row.published_date,
      url := row.url }

/-- Python tuple `<` on the sort key of `build_confidence_queue`:
`(int(severity), -float(model_confidence), str(title))`. -/
def queueKeyLt (a b : QueueItem) : Bool :=
  decide ((a.severity : ℤ) < (b.severity : ℤ)
    ∨ ((a.severity : ℤ) = (b.severity : ℤ)
       ∧ (-a.model_confidence < -b.model_confidence
          ∨ (-a.model_confidence = -b.model_confidence ∧ a.title < b.title))))

/-- Embedding of `build_confidence_queue` (retrain_discipline_model.py, lines
790–860): collect the flagged rows, then `queue.sort(key=...,
reverse=True)`. -/
def buildConfidenceQueue (modelAvailable : Bool)
    (predictText : String → Prediction) (rows : List Row) : List QueueItem :=
  sortDescBy queueKeyLt (rows.filterMap (queueItemForRow modelAvailable predictText))

/-! ## A small regular-expression engine

The graduate-position detector uses Python `re.search` over lowercased
text, with patterns built from character literals, `.`, `\s`, `[-\s]`,
word boundaries `\b`, groups, alternation `|`, `?`, `*`, `+` and a
`{1,2}` counter.  The engine below implements exactly these constructs
over `List Char`; `Rx.search` decides whether a match starts anywhere in
the text, which is the only question the source asks (every `re.search`
result is used as a boolean).  All source patterns are lowercase and the
scanned text is lowercased first, so the `re.IGNORECASE` flag of the
source is the identity here. -/

inductive Rx where
  | eps
  | lit (c : Char)
  /-- Regex `.` (the scanned single-line text has no newline). -/
  | anyChar
  /-- Regex `\s`. -/
  | wsClass
  /-- Regex character class `[-\s]`. -/
  | dashOrWs
  /-- Regex `\b`. -/
  | wordBoundary
  | seq (a b : Rx)
  | alt (a b : Rx)
  | star (a : Rx)
  deriving Repr

/-- Regex `r?`. -/
def Rx.opt (a : Rx) : Rx := .alt a .eps

/-- Regex `r+`. -/
def Rx.plus (a : Rx) : Rx := .seq a (.star a)

/-- Python regex word character `\w` (over the ASCII text scanned here). -/
def isWordChar (c : Char) : Bool := c.isAlphanum || c == '_'

/-- Word-boundary test between the previous character and the rest of the
input: exactly one side is a word character. -/
def boundaryOk (prev : Option Char) (s : List Char) : Bool :=
  (match prev with | none => false | some c => isWordChar c)
    != (match s with | [] => false | c :: _ => isWordChar c)

/-- Structural size of a pattern, used only to provision matcher fuel. -/
def Rx.size : Rx → ℕ
  | .eps => 1
  | .lit _ => 1
  | .anyChar => 1
  | .wsClass => 1
  | .dashOrWs => 1
  | .wordBoundary => 1
  | .seq a b => a.size + b.size + 1
  | .alt a b => a.size + b.size + 1
  | .star a => a.size + 1

/-- Backtracking matcher in continuation style.  `prev` is the character
just before the current input position (for `\b`); the continuation
receives the updated position.  Recursion is structural on `fuel`, which
bounds the nesting depth of matcher calls along any one search path; a
star unfolding is forced to consume at least one character, which
preserves the matched language, so the depth along a path is at most
about `pattern size × (input length + 2)` and the fuel provisioned by
`Rx.matchHere` is always sufficient. -/
def Rx.matchCont : ℕ → Rx → Option Char → List Char →
    (Option Char → List Char → Bool) → Bool
  | 0, _, _, _, _ => false
  | _ + 1, .eps, prev, s, k => k prev s
  | _ + 1, .lit c, _, s, k =>
      match s with
      | [] => false
      | x :: xs => x == c && k (some x) xs
  | _ + 1, .anyChar, _, s, k =>
      match s with
      | [] => false
      | x :: xs => x != '\n' && k (some x) xs
  | _ + 1, .wsClass, _, s, k =>
      match s with
      | [] => false
      | x :: xs => isPyWhitespace x && k (some x) xs
  | _ + 1, .dashOrWs, _, s, k =>
      match s with
      | [] => false
      | x :: xs => (x == '-' || isPyWhitespace x) && k (some x) xs
  | _ + 1, .wordBoundary, prev, s, k => boundaryOk prev s && k prev s
  | fuel + 1, .seq a b, prev, s, k =>
      Rx.matchCont fuel a prev s (fun p1 s1 => Rx.matchCont fuel b p1 s1 k)
  | fuel + 1, .alt a b, prev, s, k =>
      Rx.matchCont fuel a prev s k || Rx.matchCont fuel b prev s k
  | fuel + 1, .star a, prev, s, k =>
      k prev s ||
        Rx.matchCont fuel a prev s (fun p1 s1 =>
          if s1.length < s.length then Rx.matchCont fuel (.star a) p1 s1 k
          else false)

/-- Does a match start exactly at the current position? -/
def Rx.matchHere (r : Rx) (prev : Option Char) (s : List Char) : Bool :=
  Rx.matchCont ((r.size + 2) * (s.length + 2)) r prev s (fun _ _ => true)

/-- Scan for a match starting at any position at or after the current one. -/
def Rx.searchFrom (r : Rx) : Option Char → List Char → Bool
  | prev, [] => Rx.matchHere r prev []
  | prev, c :: cs => Rx.matchHere r prev (c :: cs) || Rx.searchFrom r (some c) cs

/-- Embedding of `re.search(pattern, text) is not None`. -/
def Rx.search (r : Rx) (s : List Char) : Bool := Rx.searchFrom r none s

/-- Concatenation of a list of regexes. -/
def rxCat (l : List Rx) : Rx := l.foldr .seq .eps

/-- Literal string regex. -/
def rxStr (s : String) : Rx := rxCat (s.toList.map .lit)

/-- Regex `\s+`. -/
def wsPlus : Rx := .plus .wsClass

/-- Regex `\s*`. -/
def wsStar : Rx := .star .wsClass

/-- Regex `.*`. -/
def dotStar : Rx := .star .anyChar

/-- Regex `.+`. -/
def dotPlus : Rx := .plus .anyChar

/-- Regex `\b`. -/
def wbRx : Rx := .wordBoundary

/-! ## Graduate-position detector (`GraduatePositionDetector`,
enhanced_analysis.py, lines 85–381)

Each regex below is transcribed from the corresponding Python raw-string
pattern (quoted in the comment above it), in source order. -/

/-- Pattern list `self.hard_exclusion_patterns` (lines 191–222). -/
def hardExclusionPatterns : List Rx :=
  [ -- r"\bpost[-\s]?doc(toral)?\b"
    rxCat [wbRx, rxStr "post", .opt .dashOrWs, rxStr "doc",
           .opt (rxStr "toral"), wbRx],
    -- r"\bveterinarian\b"
    rxCat [wbRx, rxStr "veterinarian", wbRx],
    -- r"\barchaeologist\b"
    rxCat [wbRx, rxStr "archaeologist", wbRx],
    -- r"\bassistant\s+professor\b"
    rxCat [wbRx, rxStr "assistant", wsPlus, rxStr "professor", wbRx],
    -- r"\bassociate\s+professor\b"
    rxCat [wbRx, rxStr "associate", wsPlus, rxStr "professor", wbRx],
    -- r"\bprofessor\b"
    rxCat [wbRx, rxStr "professor", wbRx],
    -- r"\bprincipal\s+investigator\b"
    rxCat [wbRx, rxStr "principal", wsPlus, rxStr "investigator", wbRx],
    -- r"\bvisiting\s+assistant\s+professor\b"
    rxCat [wbRx, rxStr "visiting", wsPlus, rxStr "assistant", wsPlus,
           rxStr "professor", wbRx],
    -- r"\breu\b"
    rxCat [wbRx, rxStr "reu", wbRx],
    -- r"\bintern(ship)?\b"
    rxCat [wbRx, rxStr "intern", .opt (rxStr "ship"), wbRx],
    -- r"\bfield\s+technician\b"
    rxCat [wbRx, rxStr "field", wsPlus, rxStr "technician", wbRx],
    -- r"\btechnician\b"
    rxCat [wbRx, rxStr "technician", wbRx],
    -- r"\becologist\b"
    rxCat [wbRx, rxStr "ecologist", wbRx],
    -- r"\benvironmental\s+specialist\b"
    rxCat [wbRx, rxStr "environmental", wsPlus, rxStr "specialist", wbRx],
    -- r"\bspecialist\s*\(rapid\s+responder\)\b"
    rxCat [wbRx, rxStr "specialist", wsStar, .lit '(', rxStr "rapid", wsPlus,
           rxStr "responder", .lit ')', wbRx],
    -- r"\bfellowship\s+coordinator\b"
    rxCat [wbRx, rxStr "fellowship", wsPlus, rxStr "coordinator", wbRx],
    -- r"\bresearch\s+assistant\s*/\s*associate\b"
    rxCat [wbRx, rxStr "research", wsPlus, rxStr "assistant", wsStar, .lit '/',
           wsStar, rxStr "associate", wbRx],
    -- r"\bsenior\s+conservation\s+research\s+assistant\b"
    rxCat [wbRx, rxStr "senior", wsPlus, rxStr "conservation", wsPlus,
           rxStr "research", wsPlus, rxStr "assistant", wbRx],
    -- r"\bseasonal\s+research\s+assistant\b"
    rxCat [wbRx, rxStr "seasonal", wsPlus, rxStr "research", wsPlus,
           rxStr "assistant", wbRx],
    -- r"\bsummer\s+fellowship\b"
    rxCat [wbRx, rxStr "summer", wsPlus, rxStr "fellowship", wbRx],
    -- r"\b(laboratory|lab)\s+and\s+field\s+support\b"
    rxCat [wbRx, .alt (rxStr "laboratory") (rxStr "lab"), wsPlus, rxStr "and",
           wsPlus, rxStr "field", wsPlus, rxStr "support", wbRx],
    -- r"\bnoaa\b.*\bfellowship\b"
    rxCat [wbRx, rxStr "noaa", wbRx, dotStar, wbRx, rxStr "fellowship", wbRx],
    -- r"\bconduct\s+your\s+own\s+research\s+project\b"
    rxCat [wbRx, rxStr "conduct", wsPlus, rxStr "your", wsPlus, rxStr "own",
           wsPlus, rxStr "research", wsPlus, rxStr "project", wbRx],
    -- r"\bwork\s+study\b"
    rxCat [wbRx, rxStr "work", wsPlus, rxStr "study", wbRx],
    -- r"\bcontinuing\s+education\b"
    rxCat [wbRx, rxStr "continuing", wsPlus, rxStr "education", wbRx],
    -- r"\bmaster'?s?\s+degrees?\s+for\s+.+\s+professionals?\b"
    rxCat [wbRx, rxStr "master", .opt (.lit '\''), .opt (.lit 's'), wsPlus,
           rxStr "degree", .opt (.lit 's'), wsPlus, rxStr "for", wsPlus,
           dotPlus, wsPlus, rxStr "professional", .opt (.lit 's'), wbRx],
    -- r"\bstudent\s+contractor\b"
    rxCat [wbRx, rxStr "student", wsPlus, rxStr "contractor", wbRx],
    -- r"\bbiologist\s+i{1,2}\b"
    rxCat [wbRx, rxStr "biologist", wsPlus, .lit 'i', .opt (.lit 'i'), wbRx],
    -- r"\bprofessional\s+certificate\b"
    rxCat [wbRx, rxStr "professional", wsPlus, rxStr "certificate", wbRx],
    -- r"\bcertificate\s+program\b"
    rxCat [wbRx, rxStr "certificate", wsPlus, rxStr "program", wbRx] ]

/-- Pattern list `self.explicit_assistantship_patterns` of the detector
(lines 223–230). -/
def explicitAssistantshipPatterns : List Rx :=
  [ -- r"\bgraduate\s+assistantship\b"
    rxCat [wbRx, rxStr "graduate", wsPlus, rxStr "assistantship", wbRx],
    -- r"\bresearch\s+assistantship\b"
    rxCat [wbRx, rxStr "research", wsPlus, rxStr "assistantship", wbRx],
    -- r"\bteaching\s+assistantship\b"
    rxCat [wbRx, rxStr "teaching", wsPlus, rxStr "assistantship", wbRx],
    -- r"\bgraduate\s+research\s+assistant(ship)?\b"
    rxCat [wbRx, rxStr "graduate", wsPlus, rxStr "research", wsPlus,
           rxStr "assistant", .opt (rxStr "ship"), wbRx],
    -- r"\bph\.?d\.?\s+assistantship\b"
    rxCat [wbRx, rxStr "ph", .opt (.lit '.'), .lit 'd', .opt (.lit '.'),
           wsPlus, rxStr "assistantship", wbRx],
    -- r"\bms\b.*\bassistantship\b"
    rxCat [wbRx, rxStr "ms", wbRx, dotStar, wbRx, rxStr "assistantship", wbRx] ]

/-- Pattern list `self.explicit_graduate_patterns` (lines 231–243).  Note
most of these have no `\b` anchors in the source. -/
def explicitGraduatePatterns : List Rx :=
  [ -- r"graduate\s+research\s+assistantship"
    rxCat [rxStr "graduate", wsPlus, rxStr "research", wsPlus,
           rxStr "assistantship"],
    -- r"graduate\s+research\s+assistant\b"
    rxCat [rxStr "graduate", wsPlus, rxStr "research", wsPlus,
           rxStr "assistant", wbRx],
    -- r"(ms|m\.s\.|masters?)\s+(research\s+)?assistantship"
    rxCat [.alt (rxStr "ms") (.alt (rxStr "m.s.") (rxCat [rxStr "master",
             .opt (.lit 's')])), wsPlus, .opt (rxCat [rxStr "research", wsPlus]),
           rxStr "assistantship"],
    -- r"(ms|m\.s\.|masters?)\s+research\s+assistant\b"
    rxCat [.alt (rxStr "ms") (.alt (rxStr "m.s.") (rxCat [rxStr "master",
             .opt (.lit 's')])), wsPlus, rxStr "research", wsPlus,
           rxStr "assistant", wbRx],
    -- r"(phd|ph\.d\.)\s+(research\s+)?assistantship"
    rxCat [.alt (rxStr "phd") (rxStr "ph.d."), wsPlus,
           .opt (rxCat [rxStr "research", wsPlus]), rxStr "assistantship"],
    -- r"graduate\s+research\s+associate"
    rxCat [rxStr "graduate", wsPlus, rxStr "research", wsPlus,
           rxStr "associate"],
    -- r"doctoral\s+(student|candidate|research|assistantship)"
    rxCat [rxStr "doctoral", wsPlus, .alt (rxStr "student")
             (.alt (rxStr "candidate")
               (.alt (rxStr "research") (rxStr "assistantship")))],
    -- r"(phd|ph\.d\.)\s+(student|candidate|position)"
    rxCat [.alt (rxStr "phd") (rxStr "ph.d."), wsPlus, .alt (rxStr "student")
             (.alt (rxStr "candidate") (rxStr "position"))],
    -- r"(ms|m\.s\.)\s+(student|candidate|position)"
    rxCat [.alt (rxStr "ms") (rxStr "m.s."), wsPlus, .alt (rxStr "student")
             (.alt (rxStr "candidate") (rxStr "position"))],
    -- r"thesis\s+research"
    rxCat [rxStr "thesis", wsPlus, rxStr "research"],
    -- r"dissertation\s+research"
    rxCat [rxStr "dissertation", wsPlus, rxStr "research"] ]

/-- Keyword list `self.grad_indicators["assistantship"]` (lines 91–100).
Keyword case is kept exactly as in the source: the scanned text is
lowercased, so keywords containing capitals can never match — a property
of the source faithfully preserved here. -/
def gradIndicatorsAssistantship : List String :=
  ["graduate assistantship", "research assistantship", "teaching assistantship",
   "grad assistantship", "RA position", "TA position", "graduate assistant",
   "assistantship position"]

/-- Keyword list `self.grad_indicators["fellowship"]` (lines 101–110). -/
def gradIndicatorsFellowship : List String :=
  ["fellowship", "graduate fellowship", "research fellowship",
   "postgraduate fellowship", "PhD fellowship", "masters fellowship",
   "doctoral fellowship", "scholar program"]

/-- Keyword list `self.grad_indicators["degree_pursuit"]` (lines 111–128). -/
def gradIndicatorsDegreePursuit : List String :=
  ["PhD position", "PhD opportunity", "masters position", "master's position",
   "doctoral position", "graduate degree", "pursuing PhD", "pursuing masters",
   "PhD student", "masters student", "graduate student", "thesis research",
   "dissertation research", "graduate program", "MS position", "MS opportunity"]

/-- Keyword list `self.grad_indicators["funding_keywords"]` (lines 129–138). -/
def gradIndicatorsFunding : List String :=
  ["stipend", "tuition waiver", "graduate funding", "research funding",
   "thesis support", "dissertation support", "academic year", "semester funding"]

/-- Keyword list `self.exclusion_indicators["internship"]` (lines 143–151). -/
def exclusionIndicatorsInternship : List String :=
  ["internship", "intern position", "summer intern", "undergraduate intern",
   "intern opportunity", "temporary intern", "seasonal intern"]

/-- Keyword list `self.exclusion_indicators["professional"]` (lines 152–168). -/
def exclusionIndicatorsProfessional : List String :=
  ["full-time position", "permanent position", "career position",
   "staff position", "professional position", "biologist position",
   "manager position", "coordinator position", "specialist position",
   "analyst position", "technician position", "officer position",
   "director position", "supervisor position", "administrator position"]

/-- Keyword list `self.exclusion_indicators["temporary_work"]` (lines 169–178). -/
def exclusionIndicatorsTemporary : List String :=
  ["temporary position", "seasonal position", "contract position", "consultant",
   "part-time position", "hourly position", "field work only",
   "summer position only"]

/-- Keyword list `self.exclusion_indicators["undergraduate"]` (lines 179–186). -/
def exclusionIndicatorsUndergraduate : List String :=
  ["undergraduate position", "undergrad position", "undergraduate opportunity",
   "high school", "community college", "associate degree"]

/-- Python `min` on two floats, written out so that concrete inputs
reduce in the kernel. -/
def pyMin (a b : ℚ) : ℚ := if a ≤ b then a else b

/-- Python `max` on two floats. -/
def pyMax (a b : ℚ) : ℚ := if a ≤ b then b else a

/-- Python lowercasing `text.lower()`, as a character map over the ASCII
texts considered here. -/
def toLowerChars (s : String) : List Char :=
  s.toList.map Char.toLower

/-- Is the first list a prefix of the second? -/
def charsPrefixOf : List Char → List Char → Bool
  | [], _ => true
  | _ :: _, [] => false
  | a :: as, b :: bs => a == b && charsPrefixOf as bs

/-- Python substring containment `needle in haystack`. -/
def charsInfixOf (needle : List Char) : List Char → Bool
  | [] => charsPrefixOf needle []
  | c :: cs => charsPrefixOf needle (c :: cs) || charsInfixOf needle cs

/-- Count of keywords occurring as substrings of the text:
`sum(1 for keyword in keywords if keyword in text_content)`. -/
def countSubstringMatches (keywords : List String) (text : List Char) : ℕ :=
  (keywords.filter (fun kw => charsInfixOf kw.toList text)).length

/-- Result dictionary of `_analyze_text` (lines 245–303). -/
structure TextAnalysis where
  hasHardExclusion : Bool
  hasExplicitAssistantship : Bool
  hasExplicitPattern : Bool
  classificationType : String
  gradScore : ℕ
  exclusionScore : ℕ
  totalScore : ℤ
  confidence : ℚ
  deriving Repr, DecidableEq

/-- Embedding of `_analyze_text` (enhanced_analysis.py, lines 245–303).
The grad-indicator loop runs in dict insertion order (assistantship,
fellowship, degree_pursuit, funding_keywords); a matching `fellowship`
category overwrites a `classification_type` set by `assistantship`, while
`degree_pursuit` only fills an unknown type, exactly as in the source. -/
def analyzeText (text : String) : TextAnalysis :=
  let tc := toLowerChars text
  let hasHardExclusion := hardExclusionPatterns.any (fun p => p.search tc)
  let hasExplicitAssistantship :=
    explicitAssistantshipPatterns.any (fun p => p.search tc)
  let mAss := countSubstringMatches gradIndicatorsAssistantship tc
  let mFel := countSubstringMatches gradIndicatorsFellowship tc
  let mDeg := countSubstringMatches gradIndicatorsDegreePursuit tc
  let mFun := countSubstringMatches gradIndicatorsFunding tc
  let gradScore0 := 2 * (mAss + mFel + mDeg + mFun)
  let ctype1 := if 0 < mAss then "Graduate Assistantship" else "unknown"
  let ctype2 := if 0 < mFel then "Fellowship" else ctype1
  let ctype3 := if 0 < mDeg ∧ ctype2 = "unknown" then "Graduate Position"
    else ctype2
  let exclusionScore := 3 * (countSubstringMatches exclusionIndicatorsInternship tc
    + countSubstringMatches exclusionIndicatorsProfessional tc
    + countSubstringMatches exclusionIndicatorsTemporary tc
    + countSubstringMatches exclusionIndicatorsUndergraduate tc)
  let hasPhdTerm := ["phd", "doctoral", "doctorate"].any
    (fun t => charsInfixOf t.toList tc)
  let gradScore1 := if hasPhdTerm then gradScore0 + 2 else gradScore0
  let ctype4 := if hasPhdTerm ∧ ctype3 = "unknown" then "PhD Position" else ctype3
  let hasMastersTerm := ["masters", "master's", "ms degree", "ms position"].any
    (fun t => charsInfixOf t.toList tc)
  let gradScore := if hasMastersTerm then gradScore1 + 2 else gradScore1
  let ctype := if hasMastersTerm ∧ ctype4 = "unknown" then "Masters Position"
    else ctype4
  let totalScore : ℤ := (gradScore : ℤ) - (exclusionScore : ℤ)
  let confidence : ℚ := pyMin (pyMax (Rat.divInt totalScore 10) 0) 1
  let hasExplicitPattern := explicitGraduatePatterns.any (fun p => p.search tc)
  { hasHardExclusion := hasHardExclusion,
    hasExplicitAssistantship := hasExplicitAssistantship,
    hasExplicitPattern := hasExplicitPattern,
    classificationType := ctype,
    gradScore := gradScore,
    exclusionScore := exclusionScore,
    totalScore := totalScore,
    confidence := confidence }

/-- Embedding of `_label_for_decision` (lines 305–315). -/
def labelForDecision (analysis : TextAnalysis) (isGrad : Bool) : String :=
  if ¬ isGrad then "Professional/Other"
  else if analysis.classificationType ≠ "unknown" then analysis.classificationType
  else if analysis.hasExplicitAssistantship then "Graduate Assistantship"
  else "Graduate Position"

/-- Embedding of `_title_phase_decision` (enhanced_analysis.py, lines
317–342): `none` when title evidence is ambiguous and the full-text
fallback applies. -/
def titlePhaseDecision (analysis : TextAnalysis) : Option (Bool × String × ℚ) :=
  if analysis.hasHardExclusion ∧ ¬ analysis.hasExplicitAssistantship then
    some (false, "Professional/Other", mkRat 1 10)
  else if analysis.hasExplicitPattern ∨ analysis.hasExplicitAssistantship then
    some (true, labelForDecision analysis true, pyMax analysis.confidence (mkRat 85 100))
  else if mkRat 8 10 ≤ analysis.confidence ∧ 4 ≤ analysis.gradScore
      ∧ analysis.exclusionScore = 0 then
    some (true, labelForDecision analysis true, analysis.confidence)
  else if 4 ≤ analysis.exclusionScore ∧ analysis.gradScore = 0 then
    some (false, "Professional/Other", pyMin analysis.confidence (mkRat 2 10))
  else none

/-- Title-phase text `f"{position.title} {position.tags}"`. -/
def titleText (position : JobPosition) : String :=
  position.title ++ " " ++ position.tags

/-- Full text
`f"{position.title} {position.tags} {position.organization} {position.description}"`. -/
def fullCombinedText (position : JobPosition) : String :=
  position.title ++ " " ++ position.tags ++ " " ++ position.organization
    ++ " " ++ position.description

/-- Embedding of `is_graduate_position` (enhanced_analysis.py, lines
344–381): title-first decision with full-text fallback; returns
`(is_graduate, classification_type, confidence)`. -/
def isGraduatePosition (position : JobPosition) : Bool × String × ℚ :=
  let titleAnalysis := analyzeText (titleText position)
  match titlePhaseDecision titleAnalysis with
  | some d => d
  | none =>
      let analysis := analyzeText (fullCombinedText position)
      if analysis.hasHardExclusion ∧ ¬ analysis.hasExplicitAssistantship then
        (false, "Professional/Other", mkRat 1 10)
      else
        let isGraduate : Bool := decide (mkRat 7 10 ≤ analysis.confidence)
          || analysis.hasExplicitPattern
          || decide (0 < analysis.totalScore ∧ 2 ≤ analysis.gradScore
               ∧ (analysis.exclusionScore : ℤ) < (analysis.gradScore : ℤ) * 2)
        let confidence1 :=
          if isGraduate ∧ (analysis.hasExplicitPattern = true
              ∨ analysis.hasExplicitAssistantship = true)
          then pyMax analysis.confidence (mkRat 75 100) else analysis.confidence
        let confidence := if isGraduate = false then pyMin confidence1 (mkRat 3 10)
          else confidence1
        (isGraduate, labelForDecision analysis isGraduate, confidence)

/-! ## Row predicate for pseudo-label provenance

The conditions a stored posting must satisfy to contribute a
pseudo-labeled example `(text, label)` relative to an exclusion-key list,
read off the skip conditions of `build_pseudo_examples`. -/

def PseudoRowOk (excluded : List String) (row : Row) (text label : String) : Prop :=
  positionKey row ≠ "" ∧ positionKey row ∉ excluded ∧
  pseudoRowDiscipline row = label ∧
  label ≠ "Other" ∧ mkRat 3 4 ≤ row.grad_confidence ∧
  combinedText row ≠ "" ∧ text = combinedText row

/-! ## Concrete instances used by witnesses and counterexamples -/

/-- A posting whose hard-exclusion evidence (`work study`) sits only in
the description while the title carries an explicit graduate pattern. -/
def c2CexPosition : JobPosition :=
  { title := "phd student", description := "work study" }

/-- A posting whose title alone matches a hard-exclusion regex. -/
def c2WitnessPosition : JobPosition := { title := "technician" }

/-- A promoted-model prediction that confidently disagrees with a
non-Other final label. -/
def c5CexPredict : String → Prediction := fun _ =>
  { primary := "Wildlife", secondary := "",
    confidence := mkRat 8 10, margin := mkRat 2 10 }

/-- A stored posting with a non-Other final discipline. -/
def c5CexRow : Row :=
  { title := "fish telemetry", discipline_primary := "Fisheries" }

/-- A stored posting with no final discipline (normalizes to Other). -/
def c5WitnessRow : Row := { title := "mystery posting" }

/-- Two still-Other rows for the queue-ordering check. -/
def c6RowA : Row := { title := "alpha" }

def c6RowB : Row := { title := "beta" }

/-- Model predictions of differing confidence for the two rows above. -/
def c6Predict : String → Prediction := fun t =>
  if t = "alpha" then
    { primary := "Other", secondary := "", confidence := mkRat 1 10, margin := 0 }
  else
    { primary := "Other", secondary := "", confidence := mkRat 5 10, margin := 0 }

/-- The queue item produced for `c5WitnessRow` with no model available. -/
def c5WitnessItem : QueueItem :=
  { severity := 3, reasons := ["final_other", "no_promoted_model"],
    position_key := "title::mystery posting::", discipline_final := "Other",
    discipline_model_suggested := "Other", discipline_model_secondary := "",
    model_confidence := 0, model_margin := 0, title := "mystery posting",
    organization := "", location := "", published_date := "", url := "" }

/-- A manifest with a promoted model, used to check that a skipped
training run leaves it untouched. -/
def c4Manifest : Manifest :=
  { promoted := some ⟨"m0", ⟨mkRat 9 10, mkRat 9 10⟩⟩, history := [] }

/-- Seven gold labels across two classes: one short of the trainability
gate. -/
def c4GoldLabels : List String :=
  ["Wildlife", "Wildlife", "Wildlife", "Wildlife",
   "Human Dimensions", "Human Dimensions", "Human Dimensions"]

/-- A gold-store row whose class (`Wildlife`) has only this one example,
so rare-class filtering drops it from the retained gold keys. -/
def c9GoldRow : Row :=
  { title := "turtle study", discipline := "Wildlife",
    position_key_field := "url::x" }

/-- A stored posting with the same position key as `c9GoldRow`. -/
def c9PosRow : Row :=
  { url := "x", title := "turtle study", discipline_primary := "Wildlife",
    grad_confidence := mkRat 8 10 }

/-! ## Helper lemmas -/

theorem mapZipZip_getElem {α β γ δ : Type} (f : α × β × γ → δ) :
    ∀ (as : List α) (bs : List β) (cs : List γ) (i : ℕ),
      ((as.zip (bs.zip cs)).map f)[i]? =
        as[i]?.bind (fun a => bs[i]?.bind (fun b => cs[i]?.map (fun c => f (a, b, c))))
  | [], _, _, _ => by simp
  | _ :: _, [], _, _ => by simp
  | _ :: _, _ :: _, [], _ => by simp
  | _ :: _, _ :: _, _ :: _, 0 => by simp
  | _ :: as, _ :: bs, _ :: cs, i + 1 => by
      simpa using mapZipZip_getElem f as bs cs i

theorem insertDescBy_perm {α : Type} (lt : α → α → Bool) (a : α) :
    ∀ l : List α, List.Perm (insertDescBy lt a l) (a :: l)
  | [] => List.Perm.refl _
  | b :: bs => by
      unfold insertDescBy
      split
      · exact List.Perm.refl _
      · exact ((insertDescBy_perm lt a bs).cons b).trans (List.Perm.swap a b bs)

theorem sortDescBy_perm_aux {α : Type} (lt : α → α → Bool) :
    ∀ (l acc : List α),
      List.Perm (l.foldl (fun acc x => insertDescBy lt x acc) acc) (acc ++ l)
  | [], acc => by simp
  | x :: xs, acc => by
      refine (sortDescBy_perm_aux lt xs (insertDescBy lt x acc)).trans ?_
      exact ((insertDescBy_perm lt x acc).append_right xs).trans List.perm_middle.symm

theorem sortDescBy_perm {α : Type} (lt : α → α → Bool) (l : List α) :
    List.Perm (sortDescBy lt l) l :=
  sortDescBy_perm_aux lt l []

theorem mem_sortDescBy {α : Type} (lt : α → α → Bool) (l : List α) (x : α) :
    x ∈ sortDescBy lt l ↔ x ∈ l :=
  (sortDescBy_perm lt l).mem_iff

theorem map_id_of_mem {α : Type} (f : α → α) :
    ∀ l : List α, (∀ x ∈ l, f x = x) → l.map f = l
  | [], _ => rfl
  | x :: xs, h => by
      have hx := h x (List.mem_cons_self x xs)
      have hxs := map_id_of_mem f xs (fun y hy => h y (List.mem_cons_of_mem x hy))
      simp [hx, hxs]

theorem getElem_exists_of_lt {α : Type} (l : List α) (i : ℕ) (h : i < l.length) :
    ∃ x, l[i]? = some x :=
  ⟨l[i], by simp [List.getElem?_eq_getElem h]⟩

theorem lt_length_of_getElem_some {α : Type} {l : List α} {i : ℕ} {a : α}
    (h : l[i]? = some a) : i < l.length := by
  by_contra hcon
  push_neg at hcon
  rw [List.getElem?_eq_none hcon] at h
  exact Option.noConfusion h

theorem refineRows_keep
    (f : JobPosition × String × String → String × String)
    (hf : ∀ pos pri sec, pri ≠ "Other" → f (pos, pri, sec) = (pri, sec))
    (positions : List JobPosition) (ps ss : List String)
    (hlen1 : positions.length = ps.length) (hlen2 : ss.length = ps.length)
    (i : ℕ) (pri : String) (hp : ps[i]? = some pri) (hne : pri ≠ "Other") :
    (((positions.zip (ps.zip ss)).map f).map Prod.fst)[i]? = some pri ∧
    (((positions.zip (ps.zip ss)).map f).map Prod.snd)[i]? = ss[i]? := by
  have hi : i < ps.length := lt_length_of_getElem_some hp
  obtain ⟨pos, hpos⟩ := getElem_exists_of_lt positions i (by omega)
  obtain ⟨sec, hsec⟩ := getElem_exists_of_lt ss i (by omega)
  have key : (List.map f (positions.zip (ps.zip ss)))[i]? = some (f (pos, pri, sec)) := by
    rw [mapZipZip_getElem f positions ps ss i, hpos, hp, hsec]
    rfl
  constructor
  · rw [List.getElem?_map, key, hf pos pri sec hne]
    rfl
  · rw [List.getElem?_map, key, hf pos pri sec hne, hsec]
    rfl

theorem refineRows_elim
    (f : JobPosition × String × String → String × String)
    (positions : List JobPosition) (ps ss : List String)
    (i : ℕ) (p s : String)
    (hp : (((positions.zip (ps.zip ss)).map f).map Prod.fst)[i]? = some p)
    (hs : (((positions.zip (ps.zip ss)).map f).map Prod.snd)[i]? = some s) :
    ∃ pos pri sec, positions[i]? = some pos ∧ ps[i]? = some pri
      ∧ ss[i]? = some sec ∧ f (pos, pri, sec) = (p, s) := by
  rw [List.getElem?_map] at hp hs
  have key := mapZipZip_getElem f positions ps ss i
  cases hpo : positions[i]? with
  | none => rw [hpo] at key; rw [key] at hp; simp at hp
  | some pos =>
    cases hpr : ps[i]? with
    | none => rw [hpo, hpr] at key; rw [key] at hp; simp at hp
    | some pri =>
      cases hse : ss[i]? with
      | none => rw [hpo, hpr, hse] at key; rw [key] at hp; simp at hp
      | some sec =>
        rw [hpo, hpr, hse] at key
        simp only [Option.some_bind, Option.map_some'] at key
        rw [key] at hp hs
        simp only [Option.map_some', Option.some.injEq] at hp hs
        exact ⟨pos, pri, sec, rfl, rfl, rfl, Prod.ext hp hs⟩

theorem secondaryRefine_ok_cases {A : Type}
    (build : List JobPosition → List String → Option A)
    (predict : A → JobPosition → SecondaryPrediction) (enabled : Bool)
    (positions : List JobPosition) (pls : List String)
    (sls : Option (List String)) (rp rs : List String)
    (h : refineOtherLabelsWithSecondaryML build predict enabled positions pls sls
      = .ok (rp, rs)) :
    (rp = basePrimaryLabels pls
      ∧ rs = baseSecondaryLabels (basePrimaryLabels pls) sls) ∨
    (∃ artifacts, build positions (basePrimaryLabels pls) = some artifacts
      ∧ positions.length = (basePrimaryLabels pls).length
      ∧ (baseSecondaryLabels (basePrimaryLabels pls) sls).length
          = (basePrimaryLabels pls).length
      ∧ rp = ((positions.zip ((basePrimaryLabels pls).zip
            (baseSecondaryLabels (basePrimaryLabels pls) sls))).map
            (secondaryRefineRow predict artifacts)).map Prod.fst
      ∧ rs = ((positions.zip ((basePrimaryLabels pls).zip
            (baseSecondaryLabels (basePrimaryLabels pls) sls))).map
            (secondaryRefineRow predict artifacts)).map Prod.snd) := by
  simp only [refineOtherLabelsWithSecondaryML] at h
  by_cases hlen : positions.length ≠ (basePrimaryLabels pls).length
      ∨ (baseSecondaryLabels (basePrimaryLabels pls) sls).length
          ≠ (basePrimaryLabels pls).length
  · rw [if_pos hlen] at h
    exact Except.noConfusion h
  · rw [if_neg hlen] at h
    push_neg at hlen
    by_cases hen : ¬ enabled = true
    · rw [if_pos hen] at h
      injection h with h1
      injection h1 with h2 h3
      exact Or.inl ⟨h2.symm, h3.symm⟩
    · rw [if_neg hen] at h
      cases hb : build positions (basePrimaryLabels pls) with
      | none =>
          rw [hb] at h
          injection h with h1
          injection h1 with h2 h3
          exact Or.inl ⟨h2.symm, h3.symm⟩
      | some artifacts =>
          rw [hb] at h
          injection h with h1
          injection h1 with h2 h3
          exact Or.inr ⟨artifacts, rfl, hlen.1, hlen.2, h2.symm, h3.symm⟩

theorem promotedRefine_ok_cases
    (predictP : JobPosition → PromotedPrediction) (enabled : Bool)
    (positions : List JobPosition) (pls : List String)
    (sls : Option (List String)) (rp rs : List String)
    (h : refineOtherLabelsWithPromotedModel predictP enabled positions pls sls
      = .ok (rp, rs)) :
    (rp = basePrimaryLabels pls
      ∧ rs = baseSecondaryLabels (basePrimaryLabels pls) sls) ∨
    (positions.length = (basePrimaryLabels pls).length
      ∧ (baseSecondaryLabels (basePrimaryLabels pls) sls).length
          = (basePrimaryLabels pls).length
      ∧ rp = ((positions.zip ((basePrimaryLabels pls).zip
            (baseSecondaryLabels (basePrimaryLabels pls) sls))).map
            (promotedRefineRow predictP)).map Prod.fst
      ∧ rs = ((positions.zip ((basePrimaryLabels pls).zip
            (baseSecondaryLabels (basePrimaryLabels pls) sls))).map
            (promotedRefineRow predictP)).map Prod.snd) := by
  simp only [refineOtherLabelsWithPromotedModel] at h
  by_cases hlen : positions.length ≠ (basePrimaryLabels pls).length
      ∨ (baseSecondaryLabels (basePrimaryLabels pls) sls).length
          ≠ (basePrimaryLabels pls).length
  · rw [if_pos hlen] at h
    exact Except.noConfusion h
  · rw [if_neg hlen] at h
    push_neg at hlen
    by_cases hen : ¬ enabled = true
    · rw [if_pos hen] at h
      injection h with h1
      injection h1 with h2 h3
      exact Or.inl ⟨h2.symm, h3.symm⟩
    · rw [if_neg hen] at h
      injection h with h1
      injection h1 with h2 h3
      exact Or.inr ⟨hlen.1, hlen.2, h2.symm, h3.symm⟩

theorem secondaryRefineRow_keep {A : Type}
    (predict : A → JobPosition → SecondaryPrediction) (artifacts : A)
    (pos : JobPosition) (pri sec : String) (hne : pri ≠ "Other") :
    secondaryRefineRow predict artifacts (pos, pri, sec) = (pri, sec) := by
  simp [secondaryRefineRow, hne]

theorem promotedRefineRow_keep
    (predictP : JobPosition → PromotedPrediction)
    (pos : JobPosition) (pri sec : String) (hne : pri ≠ "Other") :
    promotedRefineRow predictP (pos, pri, sec) = (pri, sec) := by
  simp [promotedRefineRow, hne]

/-! ## Claim theorems -/

/-- C1: the learned-refinement tiers are monotonic and Other-only.  Part
one: `refine_other_labels_with_secondary_ml` leaves every entry whose
(normalized) incoming primary label is non-Other untouched — primary and
secondary alike.  Part two: the same for
`refine_other_labels_with_promoted_model`.  Part three: composing tiers,
a later tier never revisits an entry a prior tier resolved to a
non-Other label (for already-normalized label lists, which is what every
tier emits for the rows it touches). -/
theorem c1_refinement_tiers_other_only_monotonic :
    (∀ {A : Type} (build : List JobPosition → List String → Option A)
        (predict : A → JobPosition → SecondaryPrediction) (enabled : Bool)
        (positions : List JobPosition) (pls : List String)
        (sls : Option (List String)) (rp rs : List String),
        refineOtherLabelsWithSecondaryML build predict enabled positions pls sls
          = .ok (rp, rs) →
        ∀ (i : ℕ) (pri : String),
          (basePrimaryLabels pls)[i]? = some pri → pri ≠ "Other" →
          rp[i]? = some pri
            ∧ rs[i]? = (baseSecondaryLabels (basePrimaryLabels pls) sls)[i]?) ∧
    (∀ (predictP : JobPosition → PromotedPrediction) (enabled : Bool)
        (positions : List JobPosition) (pls : List String)
        (sls : Option (List String)) (rp rs : List String),
        refineOtherLabelsWithPromotedModel predictP enabled positions pls sls
          = .ok (rp, rs) →
        ∀ (i : ℕ) (pri : String),
          (basePrimaryLabels pls)[i]? = some pri → pri ≠ "Other" →
          rp[i]? = some pri
            ∧ rs[i]? = (baseSecondaryLabels (basePrimaryLabels pls) sls)[i]?) ∧
    (∀ (predictP : JobPosition → PromotedPrediction) (enabled : Bool)
        (positions : List JobPosition) (p1 s1 rp rs : List String),
        (∀ x ∈ p1, normalizeLabel x = x) → (∀ x ∈ s1, pyStrip x = x) →
        refineOtherLabelsWithPromotedModel predictP enabled positions p1 (some s1)
          = .ok (rp, rs) →
        ∀ (i : ℕ) (v : String), p1[i]? = some v → v ≠ "Other" →
          rp[i]? = some v ∧ rs[i]? = s1[i]?) := by
  refine ⟨?_, ?_, ?_⟩
  · intro A build predict enabled positions pls sls rp rs h i pri hp hne
    rcases secondaryRefine_ok_cases build predict enabled positions pls sls rp rs h
      with ⟨h1, h2⟩ | ⟨artifacts, _, hl1, hl2, h1, h2⟩
    · subst h1; subst h2; exact ⟨hp, rfl⟩
    · subst h1; subst h2
      exact refineRows_keep _ (secondaryRefineRow_keep predict artifacts)
        _ _ _ hl1 hl2 i pri hp hne
  · intro predictP enabled positions pls sls rp rs h i pri hp hne
    rcases promotedRefine_ok_cases predictP enabled positions pls sls rp rs h
      with ⟨h1, h2⟩ | ⟨hl1, hl2, h1, h2⟩
    · subst h1; subst h2; exact ⟨hp, rfl⟩
    · subst h1; subst h2
      exact refineRows_keep _ (promotedRefineRow_keep predictP)
        _ _ _ hl1 hl2 i pri hp hne
  · intro predictP enabled positions p1 s1 rp rs hn1 hn2 h i v hv hne
    have e1 : basePrimaryLabels p1 = p1 := map_id_of_mem _ _ hn1
    have e2 : ∀ q : List String, baseSecondaryLabels q (some s1) = s1 :=
      fun _ => map_id_of_mem normalizeSecondaryLabel s1 (fun x hx => hn2 x hx)
    rcases promotedRefine_ok_cases predictP enabled positions p1 (some s1) rp rs h
      with ⟨h1, h2⟩ | ⟨hl1, hl2, h1, h2⟩
    · subst h1; subst h2
      rw [e2, e1]
      exact ⟨hv, rfl⟩
    · subst h1; subst h2
      rw [e2] at hl2
      rw [e2]
      exact refineRows_keep _ (promotedRefineRow_keep predictP)
        positions (basePrimaryLabels p1) s1 hl1 hl2 i v
        (by rw [e1]; exact hv) hne

/-- Witness for C1 at a concrete batch: a two-row batch whose first row
carries the non-Other label `Wildlife` is left unchanged by the secondary
tier even though the predictor would confidently relabel everything. -/
theorem c1_witness :
    (["Wildlife", "Entomology"] : List String)[0]? = some "Wildlife" ∧
    (["", ""] : List String)[0]?
      = (baseSecondaryLabels (basePrimaryLabels ["Wildlife", "Other"]) none)[0]? :=
  c1_refinement_tiers_other_only_monotonic.1
    (fun _ _ => some ()) (fun _ _ => ⟨"Entomology", "", 1, 1⟩) true
    [{ title := "a" }, { title := "b" }] ["Wildlife", "Other"] none
    ["Wildlife", "Entomology"] ["", ""] (by rfl) 0 "Wildlife" (by rfl) (by decide)

/-- C10: both refinement tiers raise
`ValueError("Positions and label lists must be the same length")` whenever
the positions list and the primary-labels list differ in length, or a
provided secondary-labels list differs in length from the primary list;
no labels are returned and nothing is modified (the error is raised
before any relabelling). -/
theorem c10_length_mismatch_raises :
    (∀ {A : Type} (build : List JobPosition → List String → Option A)
        (predict : A → JobPosition → SecondaryPrediction) (enabled : Bool)
        (positions : List JobPosition) (pls : List String)
        (sls : Option (List String)),
        (positions.length ≠ pls.length
          ∨ ∃ ls, sls = some ls ∧ ls.length ≠ pls.length) →
        refineOtherLabelsWithSecondaryML build predict enabled positions pls sls
          = .error "Positions and label lists must be the same length") ∧
    (∀ (predictP : JobPosition → PromotedPrediction) (enabled : Bool)
        (positions : List JobPosition) (pls : List String)
        (sls : Option (List String)),
        (positions.length ≠ pls.length
          ∨ ∃ ls, sls = some ls ∧ ls.length ≠ pls.length) →
        refineOtherLabelsWithPromotedModel predictP enabled positions pls sls
          = .error "Positions and label lists must be the same length") := by
  constructor
  · intro A build predict enabled positions pls sls hmis
    have hcond : positions.length ≠ (basePrimaryLabels pls).length
        ∨ (baseSecondaryLabels (basePrimaryLabels pls) sls).length
            ≠ (basePrimaryLabels pls).length := by
      rcases hmis with h | ⟨ls, rfl, h⟩
      · left; simpa [basePrimaryLabels] using h
      · right; simpa [baseSecondaryLabels, basePrimaryLabels] using h
    simp only [refineOtherLabelsWithSecondaryML]
    rw [if_pos hcond]
  · intro predictP enabled positions pls sls hmis
    have hcond : positions.length ≠ (basePrimaryLabels pls).length
        ∨ (baseSecondaryLabels (basePrimaryLabels pls) sls).length
            ≠ (basePrimaryLabels pls).length := by
      rcases hmis with h | ⟨ls, rfl, h⟩
      · left; simpa [basePrimaryLabels] using h
      · right; simpa [baseSecondaryLabels, basePrimaryLabels] using h
    simp only [refineOtherLabelsWithPromotedModel]
    rw [if_pos hcond]

/-- Witness for C10: an empty positions list against one primary label
makes both tiers raise. -/
theorem c10_witness :
    refineOtherLabelsWithSecondaryML (fun _ _ => (none : Option Unit))
        (fun _ _ => ⟨"", "", 0, 0⟩) true [] ["Wildlife"] none
      = .error "Positions and label lists must be the same length" ∧
    refineOtherLabelsWithPromotedModel (fun _ => ⟨false, "", "", 0, 0⟩) true
        [] ["Wildlife"] none
      = .error "Positions and label lists must be the same length" :=
  ⟨c10_length_mismatch_raises.1 _ _ true [] ["Wildlife"] none
      (Or.inl (by decide)),
   c10_length_mismatch_raises.2 _ true [] ["Wildlife"] none
      (Or.inl (by decide))⟩

/-- C7: the secondary discipline never equals the primary and is empty
unless that discipline scored positively.  Part one: for the rule-based
selection `_classify_from_scores` over a score table with distinct,
non-empty discipline names, the secondary differs from the primary and a
non-empty secondary names a discipline with a strictly positive score.
Parts two and three: the secondary and promoted refinement tiers preserve
the `secondary ≠ primary` invariant row-wise (for the secondary tier the
predictor's class labels are non-empty, as the source's centroid labels
are; the promoted tier checks emptiness itself). -/
theorem c7_secondary_never_equals_primary :
    (∀ scores : List (String × ℤ),
        (scores.map Prod.fst).Nodup → "" ∉ scores.map Prod.fst →
        (classifyFromScores scores).2 ≠ (classifyFromScores scores).1 ∧
        ((classifyFromScores scores).2 ≠ "" →
          ∃ pr ∈ scores, pr.1 = (classifyFromScores scores).2 ∧ 0 < pr.2)) ∧
    (∀ {A : Type} (build : List JobPosition → List String → Option A)
        (predict : A → JobPosition → SecondaryPrediction) (enabled : Bool)
        (positions : List JobPosition) (pls : List String)
        (sls : Option (List String)) (rp rs : List String),
        (∀ (a : A) pos, (predict a pos).primary ≠ "") →
        (∀ (i : ℕ) (p q : String), (basePrimaryLabels pls)[i]? = some p →
          (baseSecondaryLabels (basePrimaryLabels pls) sls)[i]? = some q →
          q ≠ p) →
        refineOtherLabelsWithSecondaryML build predict enabled positions pls sls
          = .ok (rp, rs) →
        ∀ (i : ℕ) (p q : String), rp[i]? = some p → rs[i]? = some q → q ≠ p) ∧
    (∀ (predictP : JobPosition → PromotedPrediction) (enabled : Bool)
        (positions : List JobPosition) (pls : List String)
        (sls : Option (List String)) (rp rs : List String),
        (∀ (i : ℕ) (p q : String), (basePrimaryLabels pls)[i]? = some p →
          (baseSecondaryLabels (basePrimaryLabels pls) sls)[i]? = some q →
          q ≠ p) →
        refineOtherLabelsWithPromotedModel predictP enabled positions pls sls
          = .ok (rp, rs) →
        ∀ (i : ℕ) (p q : String), rp[i]? = some p → rs[i]? = some q → q ≠ p) := by
  refine ⟨?_, ?_, ?_⟩
  · intro scores hnodup hnotin
    have hperm : List.Perm (rankDisciplines scores) scores :=
      sortDescBy_perm scoreKeyLt scores
    cases hrank : rankDisciplines scores with
    | nil =>
        simp only [classifyFromScores, hrank]
        exact ⟨by decide, fun h => absurd rfl h⟩
    | cons top rest =>
        have htopmem : top ∈ scores := hperm.mem_iff.mp (by rw [hrank]; simp)
        have htopne : top.1 ≠ "" := fun he =>
          hnotin (he ▸ List.mem_map_of_mem Prod.fst htopmem)
        cases rest with
        | nil =>
            simp only [classifyFromScores, hrank]
            exact ⟨fun he => htopne he.symm, fun h => absurd rfl h⟩
        | cons second tail =>
            have hsecmem : second ∈ scores := hperm.mem_iff.mp (by rw [hrank]; simp)
            have hnodup2 : ((top :: second :: tail).map Prod.fst).Nodup := by
              have := (hperm.map Prod.fst).nodup_iff.mpr hnodup
              rwa [hrank] at this
            have hne12 : second.1 ≠ top.1 := by
              simp only [List.map_cons, List.nodup_cons, List.mem_cons] at hnodup2
              exact fun he => hnodup2.1 (Or.inl he.symm)
            simp only [classifyFromScores, hrank]
            by_cases hpos : 0 < second.2
            · rw [if_pos hpos]
              exact ⟨hne12, fun _ => ⟨second, hsecmem, rfl, hpos⟩⟩
            · rw [if_neg hpos]
              exact ⟨fun he => htopne he.symm, fun h => absurd rfl h⟩
  · intro A build predict enabled positions pls sls rp rs hpred hbase h i p q hp hq
    rcases secondaryRefine_ok_cases build predict enabled positions pls sls rp rs h
      with ⟨h1, h2⟩ | ⟨artifacts, _, hl1, hl2, h1, h2⟩
    · subst h1; subst h2; exact hbase i p q hp hq
    · subst h1; subst h2
      obtain ⟨pos, pri, sec, hpo, hpr, hse, hf⟩ :=
        refineRows_elim _ positions (basePrimaryLabels pls)
          (baseSecondaryLabels (basePrimaryLabels pls) sls) i p q hp hq
      simp only [secondaryRefineRow] at hf
      by_cases hother : pri ≠ "Other"
      · rw [if_pos hother] at hf
        injection hf with hf1 hf2
        subst hf1; subst hf2
        exact hbase i _ _ hpr hse
      · rw [if_neg hother] at hf
        push_neg at hother
        split at hf
        · injection hf with hf1 hf2
          subst hf1; subst hf2
          exact hbase i _ _ hpr hse
        · injection hf with hf1 hf2
          subst hf1
          by_cases hml : (predict artifacts pos).secondary ≠ ""
              ∧ (predict artifacts pos).secondary ≠ (predict artifacts pos).primary
          · rw [if_pos hml] at hf2
            subst hf2
            exact hml.2
          · rw [if_neg hml] at hf2
            subst hf2
            exact fun he => hpred artifacts pos he.symm
  · intro predictP enabled positions pls sls rp rs hbase h i p q hp hq
    rcases promotedRefine_ok_cases predictP enabled positions pls sls rp rs h
      with ⟨h1, h2⟩ | ⟨hl1, hl2, h1, h2⟩
    · subst h1; subst h2; exact hbase i p q hp hq
    · subst h1; subst h2
      obtain ⟨pos, pri, sec, hpo, hpr, hse, hf⟩ :=
        refineRows_elim _ positions (basePrimaryLabels pls)
          (baseSecondaryLabels (basePrimaryLabels pls) sls) i p q hp hq
      simp only [promotedRefineRow] at hf
      by_cases hother : pri ≠ "Other"
      · rw [if_pos hother] at hf
        injection hf with hf1 hf2
        subst hf1; subst hf2
        exact hbase i _ _ hpr hse
      · rw [if_neg hother] at hf
        push_neg at hother
        by_cases hava : ¬ (predictP pos).available = true
        · rw [if_pos hava] at hf
          injection hf with hf1 hf2
          subst hf1; subst hf2
          exact hbase i _ _ hpr hse
        · rw [if_neg hava] at hf
          by_cases hemp : (predictP pos).primary = "" ∨ (predictP pos).primary = "Other"
          · rw [if_pos hemp] at hf
            injection hf with hf1 hf2
            subst hf1; subst hf2
            exact hbase i _ _ hpr hse
          · rw [if_neg hemp] at hf
            push_neg at hemp
            split at hf
            · injection hf with hf1 hf2
              subst hf1; subst hf2
              exact hbase i _ _ hpr hse
            · split at hf
              · injection hf with hf1 hf2
                subst hf1; subst hf2
                exact hbase i _ _ hpr hse
              · injection hf with hf1 hf2
                subst hf1
                by_cases hml : (predictP pos).secondary ≠ ""
                    ∧ (predictP pos).secondary ≠ (predictP pos).primary
                · rw [if_pos hml] at hf2
                  subst hf2
                  exact hml.2
                · rw [if_neg hml] at hf2
                  subst hf2
                  exact fun he => hemp.1 he.symm

/-- Witness for C7 at a concrete score table: with scores
`Wildlife ↦ 3, Entomology ↦ 2` the rule classifier returns primary
`Wildlife` with secondary `Entomology`, distinct and positively scored. -/
theorem c7_witness :
    (classifyFromScores [("Wildlife", 3), ("Entomology", 2)]).2
        ≠ (classifyFromScores [("Wildlife", 3), ("Entomology", 2)]).1 ∧
    ((classifyFromScores [("Wildlife", 3), ("Entomology", 2)]).2 ≠ "" →
      ∃ pr ∈ [("Wildlife", (3:ℤ)), ("Entomology", 2)],
        pr.1 = (classifyFromScores [("Wildlife", 3), ("Entomology", 2)]).2
          ∧ 0 < pr.2) :=
  c7_secondary_never_equals_primary.1 [("Wildlife", 3), ("Entomology", 2)]
    (by decide) (by decide)

/-- C8: the similarity refiner is a no-op when the rule-based scores are
not ambiguous (so the TF-IDF similarity classifier is never consulted),
and when the scores are ambiguous its acceptance rules hold: similarity
below the minimum threshold or a best category of Other keeps the rule
result; a rule-based primary of Other adopts the similarity result; a
non-Other rule primary with a disagreeing similarity primary is
overridden exactly when the similarity reaches the stricter override
threshold. -/
theorem c8_similarity_refiner_gates
    (mlClassify : String → String × String × ℚ) (primary secondary : String)
    (scores : List (String × ℤ)) (text : String) :
    (¬ isAmbiguousScores scores = true →
      maybeRefineWithML mlClassify primary secondary scores text
        = (primary, secondary)) ∧
    (isAmbiguousScores scores = true →
      ((mlClassify text).2.2 < mlMinSimilarity ∨ (mlClassify text).1 = "Other" →
        maybeRefineWithML mlClassify primary secondary scores text
          = (primary, secondary)) ∧
      (¬ ((mlClassify text).2.2 < mlMinSimilarity
            ∨ (mlClassify text).1 = "Other") →
        (primary = "Other" →
          maybeRefineWithML mlClassify primary secondary scores text
            = ((mlClassify text).1, (mlClassify text).2.1)) ∧
        (primary ≠ "Other" → (mlClassify text).1 ≠ primary →
          (mlOverrideSimilarity ≤ (mlClassify text).2.2 →
            maybeRefineWithML mlClassify primary secondary scores text
              = ((mlClassify text).1, (mlClassify text).2.1)) ∧
          ((mlClassify text).2.2 < mlOverrideSimilarity →
            maybeRefineWithML mlClassify primary secondary scores text
              = (primary, secondary))))) := by
  constructor
  · intro hamb
    simp [maybeRefineWithML, mlRefineEnabled, hamb]
  · intro hamb
    constructor
    · intro hgate
      simp [maybeRefineWithML, mlRefineEnabled, hamb, hgate]
    · intro hgate
      constructor
      · intro hother
        simp [maybeRefineWithML, mlRefineEnabled, hamb, hgate, hother]
      · intro hother hdis
        constructor
        · intro hover
          have hnotlt : ¬ (mlClassify text).2.2 < mlOverrideSimilarity :=
            not_lt.mpr hover
          simp [maybeRefineWithML, mlRefineEnabled, hamb, hgate, hother, hdis,
            hnotlt]
        · intro hover
          simp [maybeRefineWithML, mlRefineEnabled, hamb, hgate, hother, hdis,
            hover]

/-- Witness for C8: with the single ambiguous score `Wildlife ↦ 1`, a
rule-based primary of Other and a similarity result
`(Entomology, similarity 0.5)`, the refiner adopts the similarity
result. -/
theorem c8_witness :
    maybeRefineWithML (fun _ => ("Entomology", "", mkRat 5 10)) "Other" ""
      [("Wildlife", 1)] "graduate research opportunity"
      = ("Entomology", "") :=
  ((c8_similarity_refiner_gates (fun _ => ("Entomology", "", mkRat 5 10))
      "Other" "" [("Wildlife", 1)] "graduate research opportunity").2
    (by decide)).2 (by decide) |>.1 rfl

/-- C3: `promotion_decision` is a pure function of the candidate metrics,
the previously promoted metrics, the thresholds and the force flag, and
promotes exactly when forced, or no model is promoted, or macro-F1
improves by more than the minimum delta, or macro-F1 is stable within
that delta and accuracy improves by more than its minimum delta; in every
other case it returns `(False, "validation_not_improved")`. -/
theorem c3_promotion_decision_characterization
    (n : Metrics) (o : Option Metrics) (dmf da : ℚ) (force : Bool) :
    ((promotionDecision n o dmf da force).1 = true ↔
      force = true ∨ o = none
        ∨ (∃ old, o = some old ∧ old.macro_f1 + dmf < n.macro_f1)
        ∨ (∃ old, o = some old ∧ |n.macro_f1 - old.macro_f1| ≤ dmf
            ∧ old.accuracy + da < n.accuracy)) ∧
    ((promotionDecision n o dmf da force).1 = false ↔
      promotionDecision n o dmf da force
        = (false, "validation_not_improved")) := by
  cases force
  · cases o with
    | none => simp [promotionDecision]
    | some old =>
        by_cases h1 : old.macro_f1 + dmf < n.macro_f1
        · simp [promotionDecision, gt_iff_lt, h1]
        · by_cases h2 : |n.macro_f1 - old.macro_f1| ≤ dmf
              ∧ old.accuracy + da < n.accuracy
          · simp [promotionDecision, gt_iff_lt, h1, h2]
          · simp only [promotionDecision, gt_iff_lt, if_neg h1, if_neg h2,
              Bool.false_eq_true, false_iff, Bool.false_and]
            constructor
            · simp [h1, h2]
            · simp
  · simp [promotionDecision]

/-- C4: when the rare-class-filtered gold set has fewer than 8 examples
or fewer than 2 distinct classes, the training slice of `main` trains and
persists no candidate, reports reason `insufficient_gold_labels`, and
leaves the manifest — in particular its promoted-model pointer —
unchanged. -/
theorem c4_insufficient_gold_skips_training
    (texts labels keys : List String) (manifest : Manifest) (m : Metrics)
    (mid : String) (dmf da : ℚ) (force : Bool)
    (h : ((filterRareGoldClasses texts labels keys 2).2.1).length < 8
      ∨ distinctCount (filterRareGoldClasses texts labels keys 2).2.1 < 2) :
    mainTrainingOutcome (filterRareGoldClasses texts labels keys 2).2.1
        manifest m mid dmf da force
      = { trained := false, promote := false,
          reason := "insufficient_gold_labels",
          candidateModelId := none, manifest := manifest } := by
  have hcond : ¬ (8 ≤ ((filterRareGoldClasses texts labels keys 2).2.1).length
      ∧ 2 ≤ distinctCount (filterRareGoldClasses texts labels keys 2).2.1) := by
    rcases h with h | h <;> omega
  simp [mainTrainingOutcome, hcond]

/-- Witness for C4: the spec's scenario of exactly 7 gold examples across
2 classes, with a previously promoted model in the manifest, skips
training and leaves the promoted pointer in place. -/
theorem c4_witness :
    mainTrainingOutcome (filterRareGoldClasses
        ["t1", "t2", "t3", "t4", "t5", "t6", "t7"] c4GoldLabels
        ["k1", "k2", "k3", "k4", "k5", "k6", "k7"] 2).2.1
      c4Manifest { macro_f1 := 0, accuracy := 0 } "cand" (mkRat 5 1000) 0 false
      = { trained := false, promote := false,
          reason := "insufficient_gold_labels",
          candidateModelId := none, manifest := c4Manifest } :=
  c4_insufficient_gold_skips_training
    ["t1", "t2", "t3", "t4", "t5", "t6", "t7"] c4GoldLabels
    ["k1", "k2", "k3", "k4", "k5", "k6", "k7"]
    c4Manifest { macro_f1 := 0, accuracy := 0 } "cand" (mkRat 5 1000) 0 false
    (Or.inl (by decide))

/-- C5 counterexample: a queue item carrying exactly the reason
`model_rule_disagreement` has severity 1, not the
`count + 1 (disagreement) + 1 (final_other)` = 2 the claim's formula
demands — the code adds a bonus only for `final_other`. -/
theorem c5_counterexample :
    (buildConfidenceQueue true c5CexPredict [c5CexRow]).map
        (fun it => (it.severity, it.reasons))
      = [(1, ["model_rule_disagreement"])] ∧
    ¬ ((1:ℕ) = (["model_rule_disagreement"] : List String).length
        + (if "model_rule_disagreement"
              ∈ (["model_rule_disagreement"] : List String) then 1 else 0)
        + (if "final_other"
              ∈ (["model_rule_disagreement"] : List String) then 1 else 0)) := by
  constructor
  · decide
  · decide

/-- C5 amended: every confidence-queue item's severity equals the number
of its reason codes plus 1 when `final_other` is among them (the
`model_rule_disagreement` bonus of the claim is not in the code). -/
theorem c5_severity_amended (modelAvailable : Bool)
    (predictText : String → Prediction) (rows : List Row) :
    ∀ it ∈ buildConfidenceQueue modelAvailable predictText rows,
      it.severity = it.reasons.length
        + (if "final_other" ∈ it.reasons then 1 else 0) := by
  intro it hit
  simp only [buildConfidenceQueue] at hit
  have hmem := (mem_sortDescBy queueKeyLt _ it).mp hit
  obtain ⟨row, _, hsome⟩ := List.mem_filterMap.mp hmem
  simp only [queueItemForRow] at hsome
  split at hsome
  · exact Option.noConfusion hsome
  · injection hsome with h1
    subst h1
    rfl

/-- Witness for C5 (amended) at a concrete queue item: an Other-labeled
row without a promoted model yields reasons
`[final_other, no_promoted_model]` and severity `2 + 1 = 3`. -/
theorem c5_witness :
    c5WitnessItem.severity = c5WitnessItem.reasons.length
      + (if "final_other" ∈ c5WitnessItem.reasons then 1 else 0) :=
  c5_severity_amended false c5CexPredict [c5WitnessRow] c5WitnessItem (by decide)

/-- C6 failing input, evaluated: two rows of equal severity 3 whose model
confidences are 0.1 and 0.5 come out of `build_confidence_queue` in
ascending confidence order — the claim (and the spec) say descending.
The sort key negates the confidence *and* sorts with `reverse=True`,
which cancels out. -/
theorem c6_sort_order_at_failing_input :
    (buildConfidenceQueue true c6Predict [c6RowA, c6RowB]).map
        (fun it => (it.severity, it.model_confidence))
      = [(3, mkRat 1 10), (3, mkRat 1 2)] ∧ mkRat 1 10 < mkRat 1 2 := by
  constructor
  · decide
  · decide

/-- C2 counterexample: the posting `title="phd student",
description="work study"` has a full combined text that matches the
hard-exclusion regex `\bwork\s+study\b` and no explicit-assistantship
regex, yet `is_graduate_position` returns graduate at confidence 0.85:
the title phase short-circuits on the explicit graduate pattern
`(phd|ph\.d\.)\s+(student|candidate|position)` before the description is
ever analyzed. -/
theorem c2_counterexample :
    hardExclusionPatterns.any
        (fun p => p.search (toLowerChars (fullCombinedText c2CexPosition)))
      = true ∧
    explicitAssistantshipPatterns.any
        (fun p => p.search (toLowerChars (fullCombinedText c2CexPosition)))
      = false ∧
    isGraduatePosition c2CexPosition = (true, "PhD Position", mkRat 85 100) ∧
    ¬ ((isGraduatePosition c2CexPosition).1 = false
        ∧ (isGraduatePosition c2CexPosition).2.2 ≤ mkRat 3 10) := by
  exact ⟨by decide, by decide, by decide, by decide⟩

/-- C2 amended: the hard-exclusion rule holds phase-wise.  If the
title+tags text matches a hard-exclusion regex and no
explicit-assistantship regex, or the title phase is inconclusive and the
full text does, then `is_graduate_position` returns not-graduate as
`Professional/Other` at confidence exactly 0.1 (≤ 0.3). -/
theorem c2_hard_exclusion_amended (p : JobPosition)
    (h : ((analyzeText (titleText p)).hasHardExclusion = true
          ∧ (analyzeText (titleText p)).hasExplicitAssistantship = false)
      ∨ (titlePhaseDecision (analyzeText (titleText p)) = none
          ∧ (analyzeText (fullCombinedText p)).hasHardExclusion = true
          ∧ (analyzeText (fullCombinedText p)).hasExplicitAssistantship
              = false)) :
    isGraduatePosition p = (false, "Professional/Other", mkRat 1 10)
      ∧ mkRat 1 10 ≤ mkRat 3 10 := by
  refine ⟨?_, by decide⟩
  rcases h with ⟨h1, h2⟩ | ⟨h0, h1, h2⟩
  · have ht : titlePhaseDecision (analyzeText (titleText p))
        = some (false, "Professional/Other", mkRat 1 10) := by
      simp [titlePhaseDecision, h1, h2]
    simp [isGraduatePosition, ht]
  · simp [isGraduatePosition, h0, h1, h2]

/-- Witness for C2 (amended): the title `technician` matches the
hard-exclusion regex `\btechnician\b` in the title phase and is rejected
at confidence 0.1. -/
theorem c2_witness :
    isGraduatePosition c2WitnessPosition
        = (false, "Professional/Other", mkRat 1 10)
      ∧ mkRat 1 10 ≤ mkRat 3 10 :=
  c2_hard_exclusion_amended c2WitnessPosition (Or.inl ⟨by decide, by decide⟩)

theorem pseudoBucketsStep_mem (excluded : List String) (maxPerClass : ℕ)
    (perClass : String → List (String × String)) (row : Row) (d : String)
    (pr : String × String)
    (h : pr ∈ pseudoBucketsStep excluded maxPerClass perClass row d) :
    pr ∈ perClass d ∨ (PseudoRowOk excluded row pr.1 pr.2 ∧ pr.2 = d) := by
  unfold pseudoBucketsStep at h
  by_cases h1 : positionKey row = "" ∨ positionKey row ∈ excluded
  · rw [if_pos h1] at h; exact Or.inl h
  · rw [if_neg h1] at h
    push_neg at h1
    by_cases h2 : pseudoRowDiscipline row = "Other"
    · rw [if_pos h2] at h; exact Or.inl h
    · rw [if_neg h2] at h
      by_cases h3 : row.grad_confidence < mkRat 3 4
      · rw [if_pos h3] at h; exact Or.inl h
      · rw [if_neg h3] at h
        by_cases h4 : combinedText row = ""
        · rw [if_pos h4] at h; exact Or.inl h
        · rw [if_neg h4] at h
          by_cases h5 : maxPerClass ≤ (perClass (pseudoRowDiscipline row)).length
          · rw [if_pos h5] at h; exact Or.inl h
          · rw [if_neg h5] at h
            unfold bucketAppend at h
            by_cases hd : d = pseudoRowDiscipline row
            · rw [if_pos hd] at h
              rcases List.mem_append.mp h with hm | hm
              · exact Or.inl (by rw [hd]; exact hm)
              · simp only [List.mem_singleton] at hm
                subst hm
                exact Or.inr ⟨⟨h1.1, h1.2, rfl, h2, not_lt.mp h3, h4, rfl⟩,
                  hd.symm⟩
            · rw [if_neg hd] at h; exact Or.inl h

theorem pseudoBuckets_mem_aux (excluded : List String) (maxPerClass : ℕ) :
    ∀ (rows : List Row) (acc : String → List (String × String)) (d : String)
      (pr : String × String),
      pr ∈ (rows.foldl (pseudoBucketsStep excluded maxPerClass) acc) d →
      pr ∈ acc d
        ∨ ∃ row ∈ rows, PseudoRowOk excluded row pr.1 pr.2 ∧ pr.2 = d
  | [], _, _, _, h => Or.inl h
  | r :: rs, acc, d, pr, h => by
      rcases pseudoBuckets_mem_aux excluded maxPerClass rs
          (pseudoBucketsStep excluded maxPerClass acc r) d pr h
        with h | ⟨row, hm, hok⟩
      · rcases pseudoBucketsStep_mem excluded maxPerClass acc r d pr h
          with h | hok
        · exact Or.inl h
        · exact Or.inr ⟨r, List.mem_cons_self r rs, hok⟩
      · exact Or.inr ⟨row, List.mem_cons_of_mem r hm, hok⟩

theorem pseudoBuckets_mem (excluded : List String) (maxPerClass : ℕ)
    (positions : List Row) (d : String) (pr : String × String)
    (h : pr ∈ pseudoBuckets positions excluded maxPerClass d) :
    ∃ row ∈ positions, PseudoRowOk excluded row pr.1 pr.2 ∧ pr.2 = d := by
  rcases pseudoBuckets_mem_aux excluded maxPerClass positions (fun _ => []) d pr h
    with h | h
  · exact absurd h (List.not_mem_nil pr)
  · exact h

theorem pseudoBucketsStep_len (excluded : List String) (maxPerClass : ℕ)
    (perClass : String → List (String × String)) (row : Row)
    (hacc : ∀ d, (perClass d).length ≤ maxPerClass) (d : String) :
    ((pseudoBucketsStep excluded maxPerClass perClass row) d).length
      ≤ maxPerClass := by
  unfold pseudoBucketsStep
  by_cases h1 : positionKey row = "" ∨ positionKey row ∈ excluded
  · rw [if_pos h1]; exact hacc d
  · rw [if_neg h1]
    by_cases h2 : pseudoRowDiscipline row = "Other"
    · rw [if_pos h2]; exact hacc d
    · rw [if_neg h2]
      by_cases h3 : row.grad_confidence < mkRat 3 4
      · rw [if_pos h3]; exact hacc d
      · rw [if_neg h3]
        by_cases h4 : combinedText row = ""
        · rw [if_pos h4]; exact hacc d
        · rw [if_neg h4]
          by_cases h5 : maxPerClass ≤ (perClass (pseudoRowDiscipline row)).length
          · rw [if_pos h5]; exact hacc d
          · rw [if_neg h5]
            unfold bucketAppend
            by_cases hd : d = pseudoRowDiscipline row
            · rw [if_pos hd]
              have := hacc (pseudoRowDiscipline row)
              rw [List.length_append, List.length_singleton]
              omega
            · rw [if_neg hd]; exact hacc d

theorem pseudoBuckets_len_aux (excluded : List String) (maxPerClass : ℕ) :
    ∀ (rows : List Row) (acc : String → List (String × String)),
      (∀ d, (acc d).length ≤ maxPerClass) →
      ∀ d, ((rows.foldl (pseudoBucketsStep excluded maxPerClass) acc) d).length
        ≤ maxPerClass
  | [], _, hacc, d => hacc d
  | r :: rs, acc, hacc, d =>
      pseudoBuckets_len_aux excluded maxPerClass rs
        (pseudoBucketsStep excluded maxPerClass acc r)
        (pseudoBucketsStep_len excluded maxPerClass acc r hacc) d

theorem pseudoBuckets_len (excluded : List String) (maxPerClass : ℕ)
    (positions : List Row) (d : String) :
    (pseudoBuckets positions excluded maxPerClass d).length ≤ maxPerClass :=
  pseudoBuckets_len_aux excluded maxPerClass positions (fun _ => [])
    (fun _ => Nat.zero_le _) d

theorem count_flatMap_le (buckets : String → List (String × String))
    (maxPerClass : ℕ)
    (hlen : ∀ d, (buckets d).length ≤ maxPerClass)
    (hlab : ∀ d pr, pr ∈ buckets d → pr.2 = d) :
    ∀ (ds : List String), ds.Nodup → ∀ l : String,
      (((ds.flatMap (fun d => buckets d)).map Prod.snd).count l) ≤ maxPerClass
  | [], _, l => by simp
  | d :: ds, hnd, l => by
      have hnd2 : ds.Nodup := (List.nodup_cons.mp hnd).2
      have hdni : d ∉ ds := (List.nodup_cons.mp hnd).1
      rw [List.flatMap_cons, List.map_append, List.count_append]
      by_cases hl : l = d
      · subst hl
        have h1 : ((buckets l).map Prod.snd).count l ≤ maxPerClass :=
          le_trans (List.count_le_length _ _) (by simpa using hlen l)
        have h2 : (((ds.flatMap (fun x => buckets x)).map Prod.snd).count l)
            = 0 := by
          rw [List.count_eq_zero]
          intro hmem
          obtain ⟨pr, hpr, he⟩ := List.mem_map.mp hmem
          obtain ⟨e, hde, hprb⟩ := List.mem_flatMap.mp hpr
          rw [hlab e pr hprb] at he
          exact hdni (he ▸ hde)
        omega
      · have h1 : ((buckets d).map Prod.snd).count l = 0 := by
          rw [List.count_eq_zero]
          intro hmem
          obtain ⟨pr, hpr, he⟩ := List.mem_map.mp hmem
          rw [hlab d pr hpr] at he
          exact hl he.symm
        have h2 := count_flatMap_le buckets maxPerClass hlen hlab ds hnd2 l
        omega

theorem buildPseudoExamples_spec (positions : List Row)
    (excluded : List String) (maxPerClass : ℕ) :
    (∀ (i : ℕ) (t l : String),
      (buildPseudoExamples positions excluded maxPerClass).1[i]? = some t →
      (buildPseudoExamples positions excluded maxPerClass).2[i]? = some l →
      ∃ row ∈ positions, PseudoRowOk excluded row t l) ∧
    (∀ l : String,
      ((buildPseudoExamples positions excluded maxPerClass).2).count l
        ≤ maxPerClass) := by
  constructor
  · intro i t l ht hl
    simp only [buildPseudoExamples, List.getElem?_map] at ht hl
    cases hpr : (canonicalDisciplines.flatMap
        (fun d => pseudoBuckets positions excluded maxPerClass d))[i]? with
    | none => rw [hpr] at ht; exact Option.noConfusion ht
    | some pr =>
        rw [hpr] at ht hl
        simp only [Option.map_some', Option.some.injEq] at ht hl
        have hmem : pr ∈ canonicalDisciplines.flatMap
            (fun d => pseudoBuckets positions excluded maxPerClass d) := by
          have hi := lt_length_of_getElem_some hpr
          exact List.getElem?_mem hpr
        obtain ⟨d, _, hprb⟩ := List.mem_flatMap.mp hmem
        obtain ⟨row, hrow, hok, _⟩ :=
          pseudoBuckets_mem excluded maxPerClass positions d pr hprb
        rw [ht, hl] at hok
        exact ⟨row, hrow, hok⟩
  · intro l
    simp only [buildPseudoExamples]
    exact count_flatMap_le (pseudoBuckets positions excluded maxPerClass)
      maxPerClass (pseudoBuckets_len excluded maxPerClass positions)
      (fun d pr hpr =>
        (pseudoBuckets_mem excluded maxPerClass positions d pr hpr).choose_spec.2.2)
      canonicalDisciplines (by decide) l

/-- C9 counterexample: `main` excludes only the gold keys that survive
rare-class filtering (`min_count=2`), not every key with a GoldLabel in
the store.  A store holding a single `Wildlife` gold label (a rare class,
so it is dropped) still lets the posting with that very key become a
pseudo-labeled example. -/
theorem c9_counterexample :
    mainPseudoExamples [c9GoldRow] [c9PosRow] 300
      = (["turtle study"], ["Wildlife"]) ∧
    pyStrip c9GoldRow.position_key_field = positionKey c9PosRow ∧
    (goldExampleRows [c9GoldRow]).map (fun t => t.2.2)
      = [positionKey c9PosRow] := by
  exact ⟨by decide, by decide, by decide⟩

/-- C9 amended: every pseudo-labeled example assembled by `main` comes
from a stored posting whose position key is non-empty and *not among the
gold-example keys retained after rare-class filtering*, whose normalized
discipline equals the example's non-Other label, whose graduate
confidence is at least 0.75 and whose combined text is the example's
non-empty text; and at most `max_per_class` examples are taken per
discipline class. -/
theorem c9_pseudo_examples_amended (goldStoreLabels positions : List Row)
    (maxPseudoPerClass : ℕ) :
    (∀ (i : ℕ) (t l : String),
      (mainPseudoExamples goldStoreLabels positions maxPseudoPerClass).1[i]?
          = some t →
      (mainPseudoExamples goldStoreLabels positions maxPseudoPerClass).2[i]?
          = some l →
      ∃ row ∈ positions,
        PseudoRowOk (filterRareGoldClasses (buildGoldExamples goldStoreLabels).1
            (buildGoldExamples goldStoreLabels).2.1
            (buildGoldExamples goldStoreLabels).2.2 2).2.2.1 row t l) ∧
    (∀ l : String,
      ((mainPseudoExamples goldStoreLabels positions maxPseudoPerClass).2).count l
        ≤ maxPseudoPerClass) := by
  constructor
  · intro i t l ht hl
    exact (buildPseudoExamples_spec positions _ maxPseudoPerClass).1 i t l ht hl
  · intro l
    exact (buildPseudoExamples_spec positions _ maxPseudoPerClass).2 l

/-- Witness for C9 (amended): with an empty gold store, the single
qualifying posting yields the pseudo example
`("turtle study", "Wildlife")` and satisfies every provenance
condition. -/
theorem c9_witness :
    ∃ row ∈ [c9PosRow],
      PseudoRowOk (filterRareGoldClasses (buildGoldExamples []).1
          (buildGoldExamples []).2.1 (buildGoldExamples []).2.2 2).2.2.1
        row "turtle study" "Wildlife" :=
  (c9_pseudo_examples_amended [] [c9PosRow] 300).1 0 "turtle study" "Wildlife"
    (by decide) (by decide)

end WildlifeGrad
